import Mathlib

/-!
Verification development for the multi-agent code-generation pipeline
(orchestrator.py, main.py, config.py, agents/base.py, agents/planner.py,
agents/security.py, agents/testing.py, agents/validator.py,
agents/code_generator.py).

Python text is modelled as `List Char` (abbreviated `Str`); parsed JSON
values are modelled by the `Json` inductive below.  Dictionary keys and
JSON string contents use Lean `String`.  All definitions are translated
from the repository sources; the few places where a Python library
primitive (json.loads, re) is re-implemented are commented with the exact
semantics being modelled.
-/

/-- Python strings are modelled as lists of characters. -/
abbrev Str := List Char

/-- Turn a Lean string literal into the `Str` model of a Python string. -/
def str (s : String) : Str := s.data

/-- Model of Python str.lower (ASCII case folding, which is all the
sources use). -/
def lowerStr (s : Str) : Str := s.map Char.toLower

/-- Does `pat` occur at the start of `s`?  (Helper for substring search.) -/
def leadsWith : Str → Str → Bool
  | [], _ => true
  | _ :: _, [] => false
  | p :: ps, c :: cs => p = c && leadsWith ps cs

/-- Model of the Python `in` operator on strings: does `pat` occur
somewhere in `s`? -/
def containsSub (pat : Str) : Str → Bool
  | [] => leadsWith pat []
  | c :: cs => leadsWith pat (c :: cs) || containsSub pat cs

/-- Fuel-driven worker for `countSub`. -/
def countSubFuel (pat : Str) : Nat → Str → Nat
  | 0, _ => 0
  | _ + 1, [] => 0
  | f + 1, c :: cs =>
    if leadsWith pat (c :: cs) then 1 + countSubFuel pat f ((c :: cs).drop pat.length)
    else countSubFuel pat f cs

/-- Model of Python str.count: number of non-overlapping occurrences of
`pat` in `s`, scanning left to right (`pat` is non-empty in every use). -/
def countSub (pat s : Str) : Nat := countSubFuel pat s.length s

/-- Model of Python str.find for a single character: index of the first
occurrence, `none` when absent (Python returns -1). -/
def firstIdx (c : Char) : Str → Option Nat
  | [] => none
  | x :: xs => if x = c then some 0 else (firstIdx c xs).map (· + 1)

/-- Model of Python str.rfind for a single character: index of the last
occurrence, `none` when absent (Python returns -1). -/
def lastIdx (c : Char) (s : Str) : Option Nat :=
  (firstIdx c s.reverse).map (fun i => s.length - 1 - i)

/-- Model of the Python slice `s[a:b]` (for `0 ≤ a ≤ b`). -/
def pySlice (a b : Nat) (s : Str) : Str := (s.drop a).take (b - a)

/-- Fuel-driven worker for `replaceSub`. -/
def replaceSubFuel (pat repl : Str) : Nat → Str → Str
  | 0, s => s
  | _ + 1, [] => []
  | f + 1, c :: cs =>
    if leadsWith pat (c :: cs) ∧ pat ≠ [] then
      repl ++ replaceSubFuel pat repl f ((c :: cs).drop pat.length)
    else c :: replaceSubFuel pat repl f cs

/-- Model of Python str.replace: replace every non-overlapping occurrence
of `pat` by `repl`, scanning left to right. -/
def replaceSub (pat repl s : Str) : Str := replaceSubFuel pat repl s.length s

/-- Model of Python str.split over a newline separator: "a\nb" gives
["a", "b"] and "" gives [""]. -/
def splitOnNl (s : Str) : List Str :=
  s.foldr
    (fun c acc =>
      match acc with
      | [] => [[c]]
      | g :: rest => if c = '\n' then [] :: g :: rest else (c :: g) :: rest)
    [[]]

/-- Characters stripped by Python str.strip with no argument. -/
def isPySpace (c : Char) : Bool :=
  c = ' ' || c = '\t' || c = '\n' || c = '\r' || c = '\x0b' || c = '\x0c'

/-- Model of Python str.strip. -/
def trimStr (s : Str) : Str :=
  ((s.dropWhile isPySpace).reverse.dropWhile isPySpace).reverse

/-- Parsed JSON values, as produced by the response interpreter.  Numeric
literals are kept as their source lexeme: none of the modelled code
computes with parsed numbers, so lexeme identity is an adequate model. -/
inductive Json where
  | null
  | bool (b : Bool)
  | num (lex : String)
  | str (s : String)
  | arr (elems : List Json)
  | obj (fields : List (String × Json))

/-- First-match lookup in an association list (CPython dict lookup). -/
def lookupField : List (String × Json) → String → Option Json
  | [], _ => none
  | (k', v) :: rest, k => if k' = k then some v else lookupField rest k

/-- Model of Python dict.get on a parsed JSON object (`none` for a missing
key; the interpreter only ever returns objects, see `parseJsonResponse`). -/
def objGet : Json → String → Option Json
  | .obj fields, k => lookupField fields k
  | _, _ => none

/-- Model of CPython dict insertion: an existing key keeps its position and
has its value replaced, a new key is appended. -/
def objUpdate : List (String × Json) → String → Json → List (String × Json)
  | [], k, v => [(k, v)]
  | (k', v') :: rest, k, v =>
    if k' = k then (k, v) :: rest else (k', v') :: objUpdate rest k v

/-- Is the mantissa of a numeric lexeme free of nonzero digits?  Used to
model Python truthiness of numbers ("0", "0.00", "0e5" are falsy). -/
def numIsZero (lex : String) : Bool :=
  (lex.data.takeWhile (fun c => !(c == 'e') && !(c == 'E'))).all
    (fun c => !(('1' ≤ c) && (c ≤ '9')))

/-- Model of Python truthiness on parsed JSON values. -/
def pyTruthy : Json → Bool
  | .null => false
  | .bool b => b
  | .num lex => !(numIsZero lex)
  | .str s => !(s.data.isEmpty)
  | .arr l => !l.isEmpty
  | .obj l => !l.isEmpty

/-- Truthiness of `d.get(k)` for a parsed object `d` (missing keys give
Python None, which is falsy). -/
def getTruthy (d : Json) (k : String) : Bool :=
  match objGet d k with
  | some v => pyTruthy v
  | none => false

/-- Model of Python len(x): the length of a sized value (string, list,
dict); `none` models the TypeError len raises on None, booleans and
numbers. -/
def pyLen : Json → Option Nat
  | .arr l => some l.length
  | .str s => some s.data.length
  | .obj l => some l.length
  | _ => none

/-- Model of Python iteration over a value: list elements, string
characters (each a one-character string), dict keys; `none` models the
TypeError raised by `for x in v` when v is None, a boolean or a number. -/
def pyIterItems : Json → Option (List Json)
  | .arr l => some l
  | .str s => some (s.data.map (fun c => .str (String.mk [c])))
  | .obj l => some (l.map (fun kv => .str kv.1))
  | _ => none

/-- JSON whitespace characters. -/
def isJsonWs (c : Char) : Bool := c = ' ' || c = '\t' || c = '\n' || c = '\r'

/-- Value of one hexadecimal digit. -/
def hexDigitVal (c : Char) : Option Nat :=
  if '0' ≤ c && c ≤ '9' then some (c.toNat - 48)
  else if 'a' ≤ c && c ≤ 'f' then some (c.toNat - 87)
  else if 'A' ≤ c && c ≤ 'F' then some (c.toNat - 55)
  else none

/-- Parse the body of a JSON string literal after the opening quote,
modelling Python json.loads string handling in strict mode: the listed
escapes and \uXXXX are decoded, any other escape and any raw control
character is an error.  Returns the decoded content and the rest of the
input after the closing quote. -/
def parseStringBody : Nat → Str → Str → Option (String × Str)
  | 0, _, _ => none
  | _ + 1, [], _ => none
  | f + 1, c :: rest, acc =>
    if c = '"' then some (String.mk acc.reverse, rest)
    else if c = '\\' then
      match rest with
      | [] => none
      | e :: rest2 =>
        if e = '"' then parseStringBody f rest2 ('"' :: acc)
        else if e = '\\' then parseStringBody f rest2 ('\\' :: acc)
        else if e = '/' then parseStringBody f rest2 ('/' :: acc)
        else if e = 'b' then parseStringBody f rest2 ('\x08' :: acc)
        else if e = 'f' then parseStringBody f rest2 ('\x0c' :: acc)
        else if e = 'n' then parseStringBody f rest2 ('\n' :: acc)
        else if e = 'r' then parseStringBody f rest2 ('\r' :: acc)
        else if e = 't' then parseStringBody f rest2 ('\t' :: acc)
        else if e = 'u' then
          match rest2 with
          | h1 :: h2 :: h3 :: h4 :: rest3 =>
            match hexDigitVal h1, hexDigitVal h2, hexDigitVal h3, hexDigitVal h4 with
            | some a, some b, some c3, some d =>
              parseStringBody f rest3
                (Char.ofNat (((a * 16 + b) * 16 + c3) * 16 + d) :: acc)
            | _, _, _, _ => none
          | _ => none
        else none
    else if c.toNat < 32 then none
    else parseStringBody f rest (c :: acc)

/-- Is `c` an ASCII decimal digit? -/
def isDigitCh (c : Char) : Bool := '0' ≤ c && c ≤ '9'

/-- Split a leading run of digits from the input. -/
def lexDigits (s : Str) : Str × Str := (s.takeWhile isDigitCh, s.dropWhile isDigitCh)

/-- Lex the optional fraction and exponent of a JSON number.  A bare
exponent marker with no digits is treated as an error; in Python the
scanner instead stops before the marker, but the leftover marker then
makes every enclosing context fail as well, so the outcomes agree. -/
def lexFracExp (s : Str) : Option (Str × Str) :=
  let fracRes : Option (Str × Str) :=
    match s with
    | '.' :: rest =>
      let (ds, r) := lexDigits rest
      if ds.isEmpty then none else some ('.' :: ds, r)
    | _ => some ([], s)
  match fracRes with
  | none => none
  | some (fr, s2) =>
    match s2 with
    | e :: rest =>
      if e = 'e' || e = 'E' then
        let (sgn, rest2) : Str × Str :=
          match rest with
          | '+' :: r => (['+'], r)
          | '-' :: r => (['-'], r)
          | _ => ([], rest)
        let (ds, r) := lexDigits rest2
        if ds.isEmpty then none else some (fr ++ e :: (sgn ++ ds), r)
      else some (fr, s2)
    | [] => some (fr, s2)

/-- Attach fraction/exponent lexing to an already-lexed integer part. -/
def parseNumTail (intPart : Str) (s : Str) : Option (String × Str) :=
  match lexFracExp s with
  | none => none
  | some (fe, r) => some (String.mk (intPart ++ fe), r)

/-- Lex a JSON number per the json.loads grammar: optional minus, integer
part without leading zeros, optional fraction, optional exponent. -/
def parseNumber (s : Str) : Option (String × Str) :=
  match s with
  | [] => none
  | '-' :: rest =>
    match rest with
    | [] => none
    | c :: rest2 =>
      if c = '0' then parseNumTail ['-', '0'] rest2
      else if isDigitCh c then
        let (ds, r) := lexDigits rest2
        parseNumTail ('-' :: c :: ds) r
      else none
  | c :: rest =>
    if c = '0' then parseNumTail ['0'] rest
    else if isDigitCh c then
      let (ds, r) := lexDigits rest
      parseNumTail (c :: ds) r
    else none

mutual

/-- Parse one JSON value, modelling the json.loads grammar (including the
NaN/Infinity extensions Python accepts by default).  Fuel-driven; every
recursive call consumes input, so `length + 1` fuel always suffices. -/
def parseVal : Nat → Str → Option (Json × Str)
  | 0, _ => none
  | f + 1, s =>
    match s.dropWhile isJsonWs with
    | [] => none
    | '{' :: rest =>
      (match rest.dropWhile isJsonWs with
       | '}' :: r2 => some (.obj [], r2)
       | r2 => parseObjField f r2 [])
    | '[' :: rest =>
      (match rest.dropWhile isJsonWs with
       | ']' :: r2 => some (.arr [], r2)
       | r2 =>
         match parseVal f r2 with
         | some (v, r3) => parseArrTail f r3 [v]
         | none => none)
    | '"' :: rest =>
      (match parseStringBody (rest.length + 1) rest [] with
       | some (content, r2) => some (.str content, r2)
       | none => none)
    | t =>
      if leadsWith (str "true") t then some (.bool true, t.drop 4)
      else if leadsWith (str "false") t then some (.bool false, t.drop 5)
      else if leadsWith (str "null") t then some (.null, t.drop 4)
      else if leadsWith (str "NaN") t then some (.num "NaN", t.drop 3)
      else if leadsWith (str "Infinity") t then some (.num "Infinity", t.drop 8)
      else if leadsWith (str "-Infinity") t then some (.num "-Infinity", t.drop 9)
      else
        match parseNumber t with
        | some (lex, r) => some (.num lex, r)
        | none => none

/-- Parse the elements of a JSON array after the first element. -/
def parseArrTail : Nat → Str → List Json → Option (Json × Str)
  | 0, _, _ => none
  | f + 1, s, acc =>
    match s.dropWhile isJsonWs with
    | ',' :: r =>
      (match parseVal f r with
       | some (v, r2) => parseArrTail f r2 (acc ++ [v])
       | none => none)
    | ']' :: r => some (.arr acc, r)
    | _ => none

/-- Parse one key/value field of a JSON object and the remaining fields.
Duplicate keys follow CPython dict semantics via `objUpdate`. -/
def parseObjField : Nat → Str → List (String × Json) → Option (Json × Str)
  | 0, _, _ => none
  | f + 1, s, acc =>
    match s.dropWhile isJsonWs with
    | '"' :: r =>
      (match parseStringBody (r.length + 1) r [] with
       | some (k, r2) =>
         (match r2.dropWhile isJsonWs with
          | ':' :: r3 =>
            (match parseVal f r3 with
             | some (v, r4) =>
               let acc2 := objUpdate acc k v
               (match r4.dropWhile isJsonWs with
                | ',' :: r5 => parseObjField f r5 acc2
                | '}' :: r5 => some (.obj acc2, r5)
                | _ => none)
             | none => none)
          | _ => none)
       | none => none)
    | _ => none

end

/-- Model of Python json.loads: parse one JSON document and require that
only whitespace remains. -/
def jsonParse (s : Str) : Option Json :=
  match parseVal (s.length + 1) s with
  | some (v, rest) => if (rest.dropWhile isJsonWs).isEmpty then some v else none
  | none => none

/-- Match a literal character sequence, returning the rest of the input. -/
def matchLit : Str → Str → Option Str
  | [], s => some s
  | _ :: _, [] => none
  | p :: ps, c :: cs => if p = c then matchLit ps cs else none

/-- Match the regex fragment `"[^"]*(?:\\.[^"]*)*"` at the head of the
input, returning the rest after the closing quote.  Under leftmost-first
matching the alternation group never fires: after the greedy `[^"]*` the
next character is a quote (or end of input), the group requires a
backslash, and the final `"` then matches immediately, so the fragment is
equivalent to `"[^"]*"` - a quote, a run of non-quotes, a quote. -/
def matchSimpleQuoted (s : Str) : Option Str :=
  match s with
  | '"' :: rest =>
    let body := rest.takeWhile (fun c => !(c == '"'))
    (match rest.drop body.length with
     | '"' :: r => some r
     | _ => none)
  | _ => none

/-- Match the first re.sub pattern of strategy 3 of parse_json_response,
`,\s*"report"\s*:\s*"[^"]*(?:\\.[^"]*)*"`, at the head of the input. -/
def matchReport1 (s : Str) : Option Str :=
  match s with
  | ',' :: s1 =>
    (match matchLit (str "\"report\"") (s1.dropWhile isPySpace) with
     | some s3 =>
       (match s3.dropWhile isPySpace with
        | ':' :: s5 => matchSimpleQuoted (s5.dropWhile isPySpace)
        | _ => none)
     | none => none)
  | _ => none

/-- Match the second re.sub pattern of strategy 3,
`"report"\s*:\s*"[^"]*(?:\\.[^"]*)*"\s*,?`, at the head of the input. -/
def matchReport2 (s : Str) : Option Str :=
  match matchLit (str "\"report\"") s with
  | some s1 =>
    (match s1.dropWhile isPySpace with
     | ':' :: s2 =>
       (match matchSimpleQuoted (s2.dropWhile isPySpace) with
        | some s3 =>
          (match s3.dropWhile isPySpace with
           | ',' :: s5 => some s5
           | s4 => some s4)
        | none => none)
     | _ => none)
  | none => none

/-- Model of re.sub with an empty replacement: scan left to right, remove
each match and continue after it.  Every pattern used matches at least one
character, so length-based fuel suffices. -/
def subAllFuel (m : Str → Option Str) : Nat → Str → Str
  | 0, s => s
  | _ + 1, [] => []
  | f + 1, c :: cs =>
    match m (c :: cs) with
    | some rest => subAllFuel m f rest
    | none => c :: subAllFuel m f cs

/-- The report-field removal of strategy 3: first sub pattern, then the
second, exactly as in the source. -/
def removeReport (s : Str) : Str :=
  let s1 := subAllFuel matchReport1 s.length s
  subAllFuel matchReport2 s1.length s1

/-- Leftmost-match search: try the matcher at every position in turn. -/
def searchFirst {α : Type} (m : Str → Option α) : Str → Option α
  | [] => m []
  | c :: cs =>
    match m (c :: cs) with
    | some r => some r
    | none => searchFirst m cs

/-- Match `"status"\s*:\s*"([^"]+)"` at the head of the input, returning
the captured group.  The greedy `[^"]+` runs to the first quote and the
closing `"` matches there; give-backs can never succeed because every
given-back character is a non-quote. -/
def matchStatusAt (s : Str) : Option Str :=
  match matchLit (str "\"status\"") s with
  | some s1 =>
    (match s1.dropWhile isPySpace with
     | ':' :: s2 =>
       (match s2.dropWhile isPySpace with
        | '"' :: s3 =>
          let cap := s3.takeWhile (fun c => !(c == '"'))
          if cap.isEmpty then none
          else
            (match s3.drop cap.length with
             | '"' :: _ => some cap
             | _ => none)
        | _ => none)
     | _ => none)
  | none => none

/-- Consume the regex body `((?:[^"\\]|\\.)*)` followed by a closing
quote (DOTALL), returning the raw capture.  Deterministic: a quote can
only be consumed as the closing quote, a backslash always consumes two
characters; at end of input every backtracking alternative resumes at a
non-quote character, so no give-back can succeed. -/
def lexEscapedBody : Nat → Str → Str → Option (Str × Str)
  | 0, _, _ => none
  | _ + 1, [], _ => none
  | f + 1, c :: cs, acc =>
    if c = '"' then some (acc.reverse, cs)
    else if c = '\\' then
      match cs with
      | [] => none
      | e :: cs2 => lexEscapedBody f cs2 (e :: '\\' :: acc)
    else lexEscapedBody f cs (c :: acc)

/-- Match `"fixed_code"\s*:\s*"((?:[^"\\]|\\.)*)"` at the head of the
input, returning the raw (undecoded) capture. -/
def matchFixedCodeAt (s : Str) : Option Str :=
  match matchLit (str "\"fixed_code\"") s with
  | some s1 =>
    (match s1.dropWhile isPySpace with
     | ':' :: s2 =>
       (match s2.dropWhile isPySpace with
        | '"' :: s3 =>
          (match lexEscapedBody (s3.length + 1) s3 [] with
           | some (cap, _) => some cap
           | none => none)
        | _ => none)
     | _ => none)
  | none => none

/-- Match `"KEY"\s*:\s*\[(.*?)\]` (DOTALL, lazy) at the head of the input,
returning the capture: the content up to the first closing bracket. -/
def matchArrAt (key : Str) (s : Str) : Option Str :=
  match matchLit ('"' :: (key ++ ['"'])) s with
  | some s1 =>
    (match s1.dropWhile isPySpace with
     | ':' :: s2 =>
       (match s2.dropWhile isPySpace with
        | '[' :: s3 =>
          let cap := s3.takeWhile (fun c => !(c == ']'))
          (match s3.drop cap.length with
           | ']' :: _ => some cap
           | _ => none)
        | _ => none)
     | _ => none)
  | none => none

/-- Model of re.findall with pattern `"([^"]+)"`: all non-overlapping
quoted runs, scanning left to right, resuming after each match. -/
def findallQuotedFuel : Nat → Str → List Str
  | 0, _ => []
  | _ + 1, [] => []
  | f + 1, '"' :: cs =>
    let cap := cs.takeWhile (fun c => !(c == '"'))
    if cap.isEmpty then findallQuotedFuel f cs
    else
      (match cs.drop cap.length with
       | '"' :: rest => cap :: findallQuotedFuel f rest
       | _ => findallQuotedFuel f cs)
  | f + 1, _ :: cs => findallQuotedFuel f cs

/-- All captures of `"([^"]+)"` in the input. -/
def findallQuoted (s : Str) : List Str := findallQuotedFuel (s.length + 1) s

/-- Value of one octal digit. -/
def octVal (c : Char) : Option Nat :=
  if '0' ≤ c && c ≤ '7' then some (c.toNat - 48) else none

/-- Model of Python str.encode().decode of the unicode-escape codec on the
ASCII text the regex capture can contain: known single-character escapes,
octal escapes of up to three digits, \xhh, \uhhhh and \Uhhhhhhhh are
decoded; an unknown escape keeps the backslash and the character; a
trailing backslash or a malformed \x, \u, \U or \N escape is a decode
error (`none`), which the caller turns into the overall `None` result. -/
def uEscapeFuel : Nat → Str → Option Str
  | 0, _ => none
  | _ + 1, [] => some []
  | f + 1, '\\' :: rest =>
    (match rest with
     | [] => none
     | e :: rest2 =>
       if e = 'n' then (uEscapeFuel f rest2).map ('\n' :: ·)
       else if e = 't' then (uEscapeFuel f rest2).map ('\t' :: ·)
       else if e = 'r' then (uEscapeFuel f rest2).map ('\r' :: ·)
       else if e = 'b' then (uEscapeFuel f rest2).map ('\x08' :: ·)
       else if e = 'f' then (uEscapeFuel f rest2).map ('\x0c' :: ·)
       else if e = 'v' then (uEscapeFuel f rest2).map ('\x0b' :: ·)
       else if e = 'a' then (uEscapeFuel f rest2).map ('\x07' :: ·)
       else if e = '\\' then (uEscapeFuel f rest2).map ('\\' :: ·)
       else if e = '\'' then (uEscapeFuel f rest2).map ('\'' :: ·)
       else if e = '"' then (uEscapeFuel f rest2).map ('"' :: ·)
       else if (octVal e).isSome then
         (match rest2 with
          | d2 :: d3 :: rest3 =>
            (match octVal d2, octVal d3 with
             | some v2, some v3 =>
               (uEscapeFuel f rest3).map
                 (Char.ofNat (((e.toNat - 48) * 8 + v2) * 8 + v3) :: ·)
             | some v2, none =>
               (uEscapeFuel f (d3 :: rest3)).map
                 (Char.ofNat ((e.toNat - 48) * 8 + v2) :: ·)
             | none, _ =>
               (uEscapeFuel f (d2 :: d3 :: rest3)).map (Char.ofNat (e.toNat - 48) :: ·))
          | [d2] =>
            (match octVal d2 with
             | some v2 => (uEscapeFuel f []).map (Char.ofNat ((e.toNat - 48) * 8 + v2) :: ·)
             | none => (uEscapeFuel f [d2]).map (Char.ofNat (e.toNat - 48) :: ·))
          | [] => some [Char.ofNat (e.toNat - 48)])
       else if e = 'x' then
         (match rest2 with
          | h1 :: h2 :: rest3 =>
            (match hexDigitVal h1, hexDigitVal h2 with
             | some a, some b => (uEscapeFuel f rest3).map (Char.ofNat (a * 16 + b) :: ·)
             | _, _ => none)
          | _ => none)
       else if e = 'u' then
         (match rest2 with
          | h1 :: h2 :: h3 :: h4 :: rest3 =>
            (match hexDigitVal h1, hexDigitVal h2, hexDigitVal h3, hexDigitVal h4 with
             | some a, some b, some c3, some d =>
               (uEscapeFuel f rest3).map
                 (Char.ofNat (((a * 16 + b) * 16 + c3) * 16 + d) :: ·)
             | _, _, _, _ => none)
          | _ => none)
       else if e = 'U' || e = 'N' then none
       else (uEscapeFuel f rest2).map (fun t => '\\' :: e :: t))
  | f + 1, c :: rest => (uEscapeFuel f rest).map (c :: ·)

/-- Unicode-escape decoding of a whole capture. -/
def uEscape (s : Str) : Option Str := uEscapeFuel (s.length + 1) s

/-- Strategy 2 of BaseAgent.parse_json_response: strip markdown fences
("```json", "```python", "```" in that order) and retry the
first-brace/last-brace extraction. -/
def strat2 (r : Str) : Option Json :=
  let clean :=
    replaceSub (str "```") []
      (replaceSub (str "```python") [] (replaceSub (str "```json") [] r))
  match firstIdx '{' clean, lastIdx '}' clean with
  | some i, some j => if i < j + 1 then jsonParse (pySlice i (j + 1) clean) else none
  | _, _ => none

/-- Strategy 3 of BaseAgent.parse_json_response: re-slice the original
text from the first brace to the last brace, remove the problematic
"report" field by the two re.sub patterns, and retry json.loads. -/
def strat3 (r : Str) : Option Json :=
  match firstIdx '{' r, lastIdx '}' r with
  | some i, some j => jsonParse (removeReport (pySlice i (j + 1) r))
  | _, _ => none

/-- The status entry of strategy 4's extraction. -/
def s4StatusE (r : Str) : List (String × Json) :=
  match searchFirst matchStatusAt r with
  | some v => [("status", .str (String.mk v))]
  | none => []

/-- An array entry (fixes_applied or issues) of strategy 4's extraction:
the captured bracket content broken into its quoted runs. -/
def s4ArrE (key : Str) (label : String) (r : Str) : List (String × Json) :=
  match searchFirst (matchArrAt key) r with
  | some content =>
    [(label, .arr ((findallQuoted content).map (fun c => .str (String.mk c))))]
  | none => []

/-- The fixed_code entry of strategy 4's extraction; a unicode-escape
decode error is an exception in the source, aborting the whole strategy
(`none`). -/
def s4FixedE (r : Str) : Option (List (String × Json)) :=
  match searchFirst matchFixedCodeAt r with
  | some raw => (uEscape raw).map (fun d => [("fixed_code", .str (String.mk d))])
  | none => some []

/-- Strategy 4 of BaseAgent.parse_json_response: field-by-field regex
extraction of status, fixed_code, fixes_applied and issues, in the
source's insertion order. -/
def s4Extract (r : Str) : Option (List (String × Json)) :=
  (s4FixedE r).map (fun fc =>
    s4StatusE r ++ fc ++ s4ArrE (str "fixes_applied") "fixes_applied" r
      ++ s4ArrE (str "issues") "issues" r)

/-- The returned value of strategy 4: the extracted mapping, but only when
at least one of status or fixed_code was recovered with a truthy value
(the source tests `extracted.get('status') or extracted.get('fixed_code')`). -/
def strat4 (r : Str) : Option Json :=
  match s4Extract r with
  | none => none
  | some ex =>
    if getTruthy (.obj ex) "status" || getTruthy (.obj ex) "fixed_code" then some (.obj ex)
    else none

/-- Strategies 2, 3 and 4 in order, stopping at the first success; this is
the except-branch of parse_json_response. -/
def strategies234 (r : Str) : Option Json :=
  match strat2 r with
  | some v => some v
  | none =>
    match strat3 r with
    | some v => some v
    | none => strat4 r

/-- Model of BaseAgent.parse_json_response.  A falsy (None or empty)
input returns None.  Strategy 1 extracts the substring from the first
'\x7b' to the last '\x7d' and tries json.loads on it; when either brace is
missing or the bounds are inverted no exception is raised and the function
falls through to its final `return None`; when json.loads fails the except
branch runs strategies 2-4.  The function is total: it never raises. -/
def parseJsonResponse (o : Option Str) : Option Json :=
  match o with
  | none => none
  | some r =>
    if r = [] then none
    else
      match firstIdx '{' r, lastIdx '}' r with
      | some i, some j =>
        if i < j + 1 then
          match jsonParse (pySlice i (j + 1) r) with
          | some v => some v
          | none => strategies234 r
        else none
      | _, _ => none

/-- Model of Settings.is_valid_key (config.py): truthy, length above ten,
and not the known placeholder value. -/
def isValidKey (key : Str) : Bool :=
  !key.isEmpty && decide (key.length > 10) && !(key == str "your-groq-api-key-here")

/-- Outcome of the single HTTPS POST of call_groq_api.  `exn` covers any
transport error or other exception (a malformed response body included),
`timeout` the fixed 90-unit timeout, `resp` an HTTP response with its
status and extracted message content. -/
inductive NetOutcome where
  | exn
  | timeout
  | resp (status : Nat) (content : Str)

/-- The key call_groq_api actually checks and uses:
`key = api_key if api_key and len(api_key) > 10 else GROQ_API_KEY`. -/
def effectiveKey (settingsKey : Str) (apiKey : Option Str) : Str :=
  match apiKey with
  | some k => if !k.isEmpty && decide (k.length > 10) then k else settingsKey
  | none => settingsKey

/-- Model of call_groq_api (agents/base.py).  Returns the textual result
(None on every failure) paired with whether a network request was
attempted.  The function is total: every exception inside the request is
caught and mapped to None. -/
def callGroqApi (settingsKey : Str) (apiKey : Option Str) (net : NetOutcome) :
    Option Str × Bool :=
  let key := effectiveKey settingsKey apiKey
  if !(isValidKey key) then (none, false)
  else
    match net with
    | .exn => (none, true)
    | .timeout => (none, true)
    | .resp status content => if status == 200 then (some content, true) else (none, true)

/-- The keyword list of ProjectPlannerAgent._heuristic_classify, in source
order. -/
def multiSignals : List String :=
  ["app", "application", "website", "web app", "project",
   "full-stack", "fullstack", "frontend", "backend",
   "rest api", "crud", "dashboard", "landing page",
   "multiple files", "multi-file", "multi file",
   "with tests", "with database", "with auth",
   "with components", "with modules", "with routes",
   "react", "flask", "django", "fastapi", "express",
   "next.js", "nextjs", "vue", "angular", "svelte",
   "todo app", "todo application", "chat app", "chat application",
   "e-commerce", "ecommerce", "blog", "portfolio",
   "social media", "inventory", "management system",
   "login", "signup", "authentication"]

/-- Model of ProjectPlannerAgent._heuristic_classify: the first signal
contained in the lowercased prompt yields multi with a reason citing that
signal; otherwise single. -/
def heuristicClassify (prompt : Str) : Json :=
  match multiSignals.find? (fun sig => containsSub (str sig) (lowerStr prompt)) with
  | some sig =>
    .obj [("mode", .str "multi"),
          ("reason", .str ("detected \x27" ++ sig ++ "\x27 in prompt"))]
  | none => .obj [("mode", .str "single")]

/-- Model of ProjectPlannerAgent.classify.  `resp` is the raw text of the
model call (None when the gateway is unavailable).  The heuristic runs
unconditionally; a parsed verdict of multi is returned as-is, a parsed
verdict of single is overridden by a heuristic multi, anything else falls
back to the heuristic. -/
def classify (resp : Option Str) (prompt : Str) : Json :=
  let h := heuristicClassify prompt
  match parseJsonResponse resp with
  | none => h
  | some p =>
    match objGet p "mode" with
    | some (.str m) =>
      if pyTruthy p && (m == "single" || m == "multi") then
        if m == "multi" then p
        else
          match objGet h "mode" with
          | some (.str hm) => if hm == "multi" then h else p
          | _ => p
      else h
    | _ => h

/-- Decimal rendering of a count, for the f-string summaries. -/
def natStr (n : Nat) : String := Nat.repr n

/-- The dangerous-pattern table of SecurityAgent._basic_scan, in source
order: (pattern, severity, type, description). -/
def dangerousPatterns : List (String × String × String × String) :=
  [("eval(", "CRITICAL", "Code Injection", "eval() can execute arbitrary code"),
   ("exec(", "CRITICAL", "Code Injection", "exec() can execute arbitrary code"),
   ("pickle.loads(", "HIGH", "Deserialization", "pickle.loads() can execute arbitrary code"),
   ("os.system(", "HIGH", "Command Injection", "os.system() is vulnerable to command injection"),
   ("subprocess.call(", "MEDIUM", "Command Injection", "Consider using subprocess.run with shell=False"),
   ("shell=True", "HIGH", "Command Injection", "shell=True enables command injection"),
   ("password =", "MEDIUM", "Hardcoded Secret", "Possible hardcoded password"),
   ("api_key =", "MEDIUM", "Hardcoded Secret", "Possible hardcoded API key"),
   ("secret =", "MEDIUM", "Hardcoded Secret", "Possible hardcoded secret")]

/-- The pattern test of _basic_scan: `pattern.lower() in code.lower()`. -/
def patHits (pat : String) (code : Str) : Bool :=
  containsSub (lowerStr (str pat)) (lowerStr code)

/-- The vulnerabilities selected by SecurityAgent._basic_scan. -/
def basicScanVulns (code : Str) : List (String × String × String × String) :=
  dangerousPatterns.filter (fun p => patHits p.1 code)

/-- risk_level thresholds of _basic_scan. -/
def riskLevel (score : Nat) : String :=
  if score < 25 then "LOW" else if score < 50 then "MEDIUM"
  else if score < 75 then "HIGH" else "CRITICAL"

/-- One vulnerability entry of _basic_scan's result. -/
def vulnJson (p : String × String × String × String) : Json :=
  .obj [("pattern", .str p.1), ("severity", .str p.2.1),
        ("type", .str p.2.2.1), ("description", .str p.2.2.2)]

/-- Model of SecurityAgent._basic_scan, keys in source order; risk_score
is min(25 * count, 100). -/
def basicScan (code : Str) : Json :=
  let vulns := basicScanVulns code
  let score := min (vulns.length * 25) 100
  .obj [("status", .str (if vulns.isEmpty then "secure" else "vulnerabilities_found")),
        ("risk_level", .str (riskLevel score)),
        ("risk_score", .num (natStr score)),
        ("vulnerabilities", .arr (vulns.map vulnJson)),
        ("warnings", .arr []),
        ("fixes_applied", .arr []),
        ("fixed_code", .null),
        ("recommendations", .arr [.str "Review code manually for additional security issues"]),
        ("description", .str ("🛡️ Basic security scan: " ++ natStr vulns.length ++ " issues found")),
        ("message", .str ("Found " ++ natStr vulns.length ++ " vulnerability(ies)"))]

/-- Model of TestingAgent._basic_test, keys in source order. -/
def basicTest (code : Str) : Json :=
  let hasTry := containsSub (str "try:") code
  let hasValidation := containsSub (str "if ") code &&
    (containsSub (str "not ") code || containsSub (str "is None") code)
  .obj [("status", .str (if hasTry && hasValidation then "all_passed" else "warnings")),
        ("testability_score", .num (if hasTry then "70" else "50")),
        ("results", .arr
          [.obj [("test_name", .str "Syntax Check"), ("status", .str "passed"),
                 ("description", .str "Code compiles"), ("duration", .str "0.01s")],
           .obj [("test_name", .str "Error Handling"),
                 ("status", .str (if hasTry then "passed" else "warning")),
                 ("description", .str (if hasTry then "Has try/except" else "Missing error handling")),
                 ("duration", .str "0.01s")]]),
        ("issues_found", .arr (if hasTry then [] else [.str "Missing error handling"])),
        ("fixes_applied", .arr []),
        ("fixed_code", .null),
        ("suggested_tests", .arr [.str "Test with valid inputs", .str "Test with edge cases"]),
        ("description", .str "📊 Basic testability analysis"),
        ("message", .str ("Testability score: " ++ (if hasTry then "70" else "50") ++ "/100"))]

/-- The per-line issues of ValidationAgent._basic_validate: a line longer
than 120 characters and a tab on a line each add one issue, in line order,
length check first (lines are numbered from 1). -/
def lineIssues (lines : List Str) : List String :=
  lines.enum.flatMap (fun p =>
    (if p.2.length > 120 then ["Line " ++ natStr (p.1 + 1) ++ ": exceeds 120 characters"] else []) ++
    (if containsSub (str "\t") p.2 then ["Line " ++ natStr (p.1 + 1) ++ ": uses tabs instead of spaces"] else []))

/-- Model of ValidationAgent._basic_validate, keys in source order. -/
def basicValidate (code : Str) : Json :=
  let lines := splitOnNl code
  let issues := lineIssues lines ++
    (if containsSub (str "import *") code then
      ["Wildcard imports detected - avoid \x27from x import *\x27"] else [])
  .obj [("status", .str (if issues.isEmpty then "passed" else "warnings")),
        ("issues", .arr (issues.map Json.str)),
        ("warnings", .arr []),
        ("suggestions", .arr []),
        ("stats", .obj [("functions", .num (natStr (countSub (str "def ") code))),
                        ("classes", .num (natStr (countSub (str "class ") code))),
                        ("lines", .num (natStr lines.length))]),
        ("fixes_applied", .arr []),
        ("fixed_code", .null),
        ("description", .str ("📊 Basic validation: " ++ natStr issues.length ++ " issues found")),
        ("message", .str ("Found " ++ natStr issues.length ++ " issue(s)"))]

/-- Model of CodeGeneratorAgent._mock_generate: the deterministic fallback
artifact embedding the first 30 characters of the prompt. -/
def mockGenerate (prompt : Str) : Str :=
  str "def solution(param1, param2):\n    \"\"\"Generated function for: " ++
  prompt.take 30 ++
  str "...\"\"\"\n    result = param1 + param2\n    return result\n\nif __name__ == \"__main__\":\n    print(solution(10, 20))"

/-- Word characters of the regex class \w. -/
def isWordChar (c : Char) : Bool :=
  ('a' ≤ c && c ≤ 'z') || ('A' ≤ c && c ≤ 'Z') || ('0' ≤ c && c ≤ '9') || c = '_'

/-- Does a line, after stripping, match the opening-fence regex
`^```\w*$` of CodeGeneratorAgent._strip_markdown_fences? -/
def isOpenFence (line : Str) : Bool :=
  let t := trimStr line
  leadsWith (str "```") t && (t.drop 3).all isWordChar

/-- Model of CodeGeneratorAgent._strip_markdown_fences: drop an opening
fence line and a closing "```" line. -/
def stripMarkdownFences (code : Str) : Str :=
  let lines := splitOnNl code
  let lines1 :=
    match lines with
    | l0 :: rest => if isOpenFence l0 then rest else lines
    | [] => lines
  let lines2 :=
    match lines1.getLast? with
    | some ll => if trimStr ll == str "```" then lines1.dropLast else lines1
    | none => lines1
  List.intercalate (str "\n") lines2

/-- Model of CodeGeneratorAgent.generate: a truthy API result is
fence-stripped and returned (even when stripping leaves it empty); a falsy
or absent result falls back to the mock. -/
def generate (resp : Option Str) (prompt : Str) : Str :=
  match resp with
  | some r => if r ≠ [] then stripMarkdownFences r else mockGenerate prompt
  | none => mockGenerate prompt

/-- The fields of a parsed response (the response interpreter only returns
objects, see the strategies of `parseJsonResponse`). -/
def fieldsOf : Json → List (String × Json)
  | .obj l => l
  | _ => []

/-- The model responses available to one run, one per stage call (None
models gateway unavailability, a non-success status or any failure). -/
structure Oracle where
  genResp : Option Str
  valResp : Option Str
  testResp : Option Str
  secResp : Option Str

/-- The oracle of a run during which the external model is unavailable at
every stage. -/
def unavailableOracle : Oracle := ⟨none, none, none, none⟩

/-- Stage-agent wrapper shared by validate/test/scan (agents/validator.py,
agents/testing.py, agents/security.py): a successful parse is returned
with ai_powered set true; otherwise the deterministic heuristic runs on
the artifact with ai_powered false.  The heuristics call string methods on
the artifact, so on a non-string artifact (possible only after an earlier
stage installed a non-string fixed_code) the Python code raises; that is
modelled as `none`.  The human-readable `message` summary the wrapper also
inserts is presentation-only and not modelled. -/
def agentRun (basic : Str → Json) (resp : Option Str) (art : Json) : Option Json :=
  match parseJsonResponse resp with
  | some p => some (.obj (objUpdate (fieldsOf p) "ai_powered" (.bool true)))
  | none =>
    match art with
    | .str s => some (.obj (objUpdate (fieldsOf (basic s.data)) "ai_powered" (.bool false)))
    | _ => none

/-- The per-stage fix application of Orchestrator.run_workflow and
run_agents_on_code: `if result.get('fixed_code') and
result.get('fixes_applied'): code = result['fixed_code']` followed by the
append to all_fixes.  Whole-artifact replacement; no marker-count or any
other structural check is performed. -/
def applyStage (agent : String) (res : Json) (code : Json)
    (fixes : List (String × Json)) : Json × List (String × Json) :=
  if getTruthy res "fixed_code" && getTruthy res "fixes_applied" then
    ((objGet res "fixed_code").getD .null,
      fixes ++ [(agent, (objGet res "fixes_applied").getD .null)])
  else (code, fixes)

/-- One entry of the orchestrator's workflow history (agent label and the
status tag the orchestrator writes). -/
structure WfStep where
  agent : String
  status : String

/-- Snapshot returned by a run: final artifact, workflow history, and the
aggregated all_fixes sequence. -/
structure RunOut where
  code : Json
  history : List WfStep
  allFixes : List (String × Json)

/-- The four history entries of run_workflow: every stage appends exactly
one step with status "completed". -/
def fullHistory : List WfStep :=
  [⟨"Code Generator", "completed"⟩, ⟨"Validator", "completed"⟩,
   ⟨"Testing", "completed"⟩, ⟨"Security", "completed"⟩]

/-- Model of Orchestrator.run_workflow: generate, then validate, test and
secure with fix chaining.  `none` models an unhandled exception inside a
heuristic fallback applied to a non-string artifact. -/
def runWorkflow (o : Oracle) (prompt : Str) : Option RunOut :=
  let code0 : Json := .str (String.mk (generate o.genResp prompt))
  match agentRun basicValidate o.valResp code0 with
  | none => none
  | some v =>
    let (c1, f1) := applyStage "Validator" v code0 []
    match agentRun basicTest o.testResp c1 with
    | none => none
    | some t =>
      let (c2, f2) := applyStage "Testing" t c1 f1
      match agentRun basicScan o.secResp c2 with
      | none => none
      | some s =>
        let (c3, f3) := applyStage "Security" s c2 f2
        some ⟨c3, fullHistory, f3⟩

/-- The three history entries of run_agents_on_code. -/
def agentsHistory : List WfStep :=
  [⟨"Validator", "completed"⟩, ⟨"Testing", "completed"⟩, ⟨"Security", "completed"⟩]

/-- Model of Orchestrator.run_agents_on_code: validate, test and secure an
existing artifact with the same fix chaining as run_workflow. -/
def runAgentsOnCode (o : Oracle) (code : Str) : Option RunOut :=
  let code0 : Json := .str (String.mk code)
  match agentRun basicValidate o.valResp code0 with
  | none => none
  | some v =>
    let (c1, f1) := applyStage "Validator" v code0 []
    match agentRun basicTest o.testResp c1 with
    | none => none
    | some t =>
      let (c2, f2) := applyStage "Testing" t c1 f1
      match agentRun basicScan o.secResp c2 with
      | none => none
      | some s =>
        let (c3, f3) := applyStage "Security" s c2 f2
        some ⟨c3, agentsHistory, f3⟩

/-- Number of multi-file separator markers in an artifact: occurrences of
the marker opener the generator and the stage prompts use. -/
def countMarkers (s : Str) : Nat := countSub (str "<!--") s

/-- Protocol events emitted by the streaming endpoint (main.py,
generate_code_stream and _generate_single_file), abstracted to their kind
and stage attribution; payloads (ids, durations, snapshots) are carried by
the source but do not affect ordering.  Modelled from the spec: the
emitter class AGUIEvents that main.py instantiates is referenced but not
present under src/agui_protocol.py; its constructors are taken from the
spec's event-protocol section (kinds and attribution only), and each
to_sse serialisation is total. -/
inductive Ev where
  | runStarted
  | runFinished
  | stepStarted (sid : String)
  | stepFinished (sid : String)
  | agentActivity (agent : String) (phase : String)
  | workflowUpdate
  | stateSnapshot
  | stateDelta
  | textMessageStart
  | textMessageContent
  | textMessageEnd
  | toolCallStart (agent : String)
  | toolCallArgs (agent : String)
  | toolCallEnd (agent : String)
  | toolCallResult (agent : String)
  | codeUpdate (source : String)
  | agentResult (agent : String)
deriving DecidableEq

/-- The four tool-call events emitted for one applied fix. -/
def toolQuad (agent : String) : List Ev :=
  [.toolCallStart agent, .toolCallArgs agent, .toolCallEnd agent, .toolCallResult agent]

/-- An integer literal lexeme: optional minus sign, then digits only.
Exactly the numeric lexemes json.loads parses to a Python int. -/
def isIntLexeme (lex : String) : Bool :=
  match lex.data with
  | '-' :: ds => !ds.isEmpty && ds.all isDigitCh
  | ds => !ds.isEmpty && ds.all isDigitCh

/-- Whether create_fix_spec (agui_protocol.py) builds a FixCardSpec from
one reported fix without raising.  A non-dict fix is stringified with the
default severity and always succeeds.  For a dict fix the source reads
description (default str(fix), a str; a present non-string value fails
FixCardSpec validation, pydantic v2 does not coerce numbers to str),
severity (default the given str; severity.lower() raises AttributeError
on a non-string), before/after (Optional[str]: absent or null become
None, any other non-string fails validation) and line (Optional[int]:
absent or null become None, an integer literal passes).  For line this is
the conservative core: pydantic v2 lax mode also coerces a few more
shapes (integral floats, digit strings); runs relying on those coercions
simply fall outside the well-formedness hypothesis of the theorems below,
whose unconditional conclusions are prefix-robust either way. -/
def fixItemOk : Json → Bool
  | .obj fields =>
    (match lookupField fields "description" with
     | some (.str _) => true | none => true | _ => false) &&
    (match lookupField fields "severity" with
     | some (.str _) => true | none => true | _ => false) &&
    (match lookupField fields "before" with
     | some (.str _) => true | some .null => true | none => true | _ => false) &&
    (match lookupField fields "after" with
     | some (.str _) => true | some .null => true | none => true | _ => false) &&
    (match lookupField fields "line" with
     | some (.num lex) => isIntLexeme lex | some .null => true | none => true
     | _ => false)
  | _ => true

/-- Whether d.get(k, []) is a sized value, i.e. whether len(d.get(k, []))
evaluates without a TypeError: the key may be absent (default [] is
sized), but a present null, boolean or number value makes len raise. -/
def sizedAt (d : Json) (k : String) : Bool :=
  (pyLen ((objGet d k).getD (.arr []))).isSome

/-- Whether ValidationAgent.validate completes on a parsed result: its
summary message interpolates len(parsed.get('issues', [])) and
len(parsed.get('fixes_applied', [])) (validator.py line 72), which raise
on a present non-sized value, aborting the stage before any result is
returned.  The agent_result stats in _generate_single_file repeat the
same len(validation.get('issues', [])), adding no further crash point. -/
def valMsgOk (d : Json) : Bool :=
  sizedAt d "issues" && sizedAt d "fixes_applied"

/-- Whether TestingAgent.test completes on a parsed result: its message
computes len(parsed.get('fixes_applied', [])) (testing.py line 72); the
testing agent_result stats apply no len to the result. -/
def testMsgOk (d : Json) : Bool :=
  sizedAt d "fixes_applied"

/-- Whether SecurityAgent.scan completes on a parsed result: its message
computes len(parsed.get('vulnerabilities', [])) and
len(parsed.get('fixes_applied', [])) (security.py lines 75-76); the
security agent_result stats repeat len(security.get('vulnerabilities',
[])), adding no further crash point. -/
def secMsgOk (d : Json) : Bool :=
  sizedAt d "vulnerabilities" && sizedAt d "fixes_applied"

/-- Whether process_agent_fixes (main.py) returns without raising on a
stage result: when both fixed_code and fixes_applied are truthy it
iterates result_data['fixes_applied'] - a TypeError on a truthy
non-iterable - and builds a FixCardSpec per item - raising on an
ill-typed dict item (see fixItemOk).  The function builds its whole event
list before the caller yields any of it, so when it raises the stage has
emitted only its opening events and the generator dies: no fix events, no
step-finished, no agent_result, no run-finished reach the client. -/
def fixesOk (d : Json) : Bool :=
  if getTruthy d "fixed_code" && getTruthy d "fixes_applied" then
    match pyIterItems ((objGet d "fixes_applied").getD .null) with
    | some items => items.all fixItemOk
    | none => false
  else true

/-- Whether one analysis stage of _generate_single_file runs to
completion on its result: the agent wrapper's summary message must
evaluate (msgOk) and process_agent_fixes must return (fixesOk). -/
def stageOk (msgOk : Json → Bool) (d : Json) : Bool :=
  msgOk d && fixesOk d

/-- The events process_agent_fixes hands back to be yielded when it
returns normally on a list of fix items: four tool-call events per
reported fix followed by one code_update.  Tool-call events are
attributed to the fixing agent through the tool name and call id they
carry in the source. -/
def fixEvents (agent source : String) (items : List Json) : List Ev :=
  (List.replicate items.length (toolQuad agent)).flatten ++ [.codeUpdate source]

/-- The fix events of a stage result: empty when the apply guard
(truthy fixed_code and truthy fixes_applied) fails; meaningful only when
fixesOk holds, the callers guard on it. -/
def fixEventsOf (agent source : String) (d : Json) : List Ev :=
  if getTruthy d "fixed_code" && getTruthy d "fixes_applied" then
    match pyIterItems ((objGet d "fixes_applied").getD .null) with
    | some items => fixEvents agent source items
    | none => []
  else []

/-- Opening events of an analysis stage, emitted before the agent is
called: step-started, workflow update, analyzing activity. -/
def stagePre (sid actAgent : String) : List Ev :=
  [.stepStarted sid, .workflowUpdate, .agentActivity actAgent "analyzing"]

/-- Closing events of an analysis stage: step-finished, workflow update,
agent result. -/
def stagePost (sid actAgent : String) : List Ev :=
  [.stepFinished sid, .workflowUpdate, .agentResult actAgent]

/-- Events of one analysis stage of _generate_single_file together with
its completion flag.  On a crash-free result (stageOk), in exact source
order: step-started, workflow update, activity, fix events,
step-finished, workflow update, agent result.  When the agent call's
summary message or process_agent_fixes raises, the already-sent opening
events stand (they are SSE frames on the wire) and the generator emits
nothing further - the flag false makes the caller truncate the run. -/
def stageEvents (sid actAgent toolAgent source : String)
    (msgOk : Json → Bool) (d : Json) : List Ev × Bool :=
  if stageOk msgOk d then
    (stagePre sid actAgent ++ fixEventsOf toolAgent source d
       ++ stagePost sid actAgent, true)
  else (stagePre sid actAgent, false)

/-- Events of the generator stage of _generate_single_file with `n`
streamed chunks. -/
def genBlock (n : Nat) : List Ev :=
  [.stepStarted "code_generator", .workflowUpdate,
   .agentActivity "Code Generator" "starting", .textMessageStart]
  ++ List.replicate n .textMessageContent
  ++ [.textMessageEnd, .stateDelta, .stepFinished "code_generator",
      .workflowUpdate, .agentActivity "Code Generator" "complete"]

/-- Events of the classification preamble of generate_code_stream.
Modelled from the spec: orchestrator.classify_prompt is called here but
absent from src/orchestrator.py; per the spec's classifier section it
delegates to the planner's classification and returns its mapping
without emitting events or raising. -/
def classifierBlock : List Ev :=
  [.stepStarted "classifier", .agentActivity "Project Planner" "analyzing",
   .stepFinished "classifier", .agentActivity "Project Planner" "complete",
   .stateSnapshot]

/-- The full event sequence of a single-file streamed run
(generate_code_stream plus _generate_single_file), parametrised by the
number of generator chunks and the three stage results.  A stage whose
result makes the Python code raise (see stageEvents) truncates the
stream right there: the events already sent stand, the later stages and
the terminal state-snapshot and run-finished events are never emitted. -/
def singleFileRun (n : Nat) (v t s : Json) : List Ev :=
  let head := Ev.runStarted :: classifierBlock ++ genBlock n
  let ve := stageEvents "validator" "Validator" "Validator" "validator" valMsgOk v
  if ve.2 = false then head ++ ve.1
  else
    let te := stageEvents "testing" "Testing Agent" "Testing" "testing" testMsgOk t
    if te.2 = false then head ++ (ve.1 ++ te.1)
    else
      let se := stageEvents "security" "Security Agent" "Security" "security" secMsgOk s
      if se.2 = false then head ++ (ve.1 ++ (te.1 ++ se.1))
      else head ++ (ve.1 ++ (te.1 ++ (se.1 ++ [.stateSnapshot, .runFinished])))

/-- The canonical lifecycle bracket sequence of a complete single-file
run: run-started, the step-started/step-finished pair of each stage in
pipeline order, run-finished. -/
def lifecycleCanonical : List Ev :=
  [.runStarted, .stepStarted "classifier", .stepFinished "classifier",
   .stepStarted "code_generator", .stepFinished "code_generator",
   .stepStarted "validator", .stepFinished "validator",
   .stepStarted "testing", .stepFinished "testing",
   .stepStarted "security", .stepFinished "security", .runFinished]

/-- Pipeline position of a stage id. -/
def stepRank (sid : String) : Option Nat :=
  if sid = "classifier" then some 0
  else if sid = "code_generator" then some 1
  else if sid = "validator" then some 2
  else if sid = "testing" then some 3
  else if sid = "security" then some 4
  else none

/-- Pipeline position of an agent display name as used by the emitters. -/
def agentRank (a : String) : Option Nat :=
  if a = "Project Planner" then some 0
  else if a = "Code Generator" then some 1
  else if a = "Validator" then some 2
  else if a = "Testing" ∨ a = "Testing Agent" then some 3
  else if a = "Security" ∨ a = "Security Agent" then some 4
  else none

/-- Pipeline position of a code_update source tag. -/
def sourceRank (s : String) : Option Nat :=
  if s = "validator" then some 2
  else if s = "testing" then some 3
  else if s = "security" then some 4
  else none

/-- The stage an event belongs to, `none` for run-level or neutral events
(workflow-timeline updates and state events address the whole run).
Text-message events belong to the generator stage, which emits every text
message of the single-file flow. -/
def stageRankOf : Ev → Option Nat
  | .runStarted | .runFinished | .workflowUpdate | .stateSnapshot | .stateDelta => none
  | .stepStarted sid => stepRank sid
  | .stepFinished sid => stepRank sid
  | .agentActivity a _ => agentRank a
  | .agentResult a => agentRank a
  | .textMessageStart | .textMessageContent | .textMessageEnd => some 1
  | .toolCallStart a => agentRank a
  | .toolCallArgs a => agentRank a
  | .toolCallEnd a => agentRank a
  | .toolCallResult a => agentRank a
  | .codeUpdate src => sourceRank src

/-- Refined ordering key: the step-started event of stage r gets key 2r,
every other event of stage r gets 2r+1.  A sorted key sequence therefore
means: stages are strictly sequential (never interleaved) and every
event of a stage comes at or after its step-started. -/
def stageKey (e : Ev) : Option Nat :=
  match e with
  | .stepStarted sid => (stepRank sid).map (fun r => 2 * r)
  | _ => (stageRankOf e).map (fun r => 2 * r + 1)

/-- Lifecycle events of the protocol: run and step brackets. -/
def isLifecycle : Ev → Bool
  | .runStarted | .runFinished => true
  | .stepStarted _ | .stepFinished _ => true
  | _ => false

/-- Stage id of pipeline position r. -/
def stageIdName (r : Nat) : String :=
  if r = 0 then "classifier" else if r = 1 then "code_generator"
  else if r = 2 then "validator" else if r = 3 then "testing" else "security"

/-- Decidable rendering of the claim's bracketing property on a concrete
event list: every event belonging to a stage (bracket markers aside)
occurs strictly after that stage's step-started and strictly before its
step-finished. -/
def claimBracketed (L : List Ev) : Bool :=
  (List.range L.length).all fun i =>
    match L.get? i with
    | none => true
    | some (.stepStarted _) => true
    | some (.stepFinished _) => true
    | some e =>
      match stageRankOf e with
      | none => true
      | some r =>
        ((List.range i).any fun j =>
          L.get? j == some (.stepStarted (stageIdName r))) &&
        ((List.range L.length).any fun j =>
          decide (i < j) && (L.get? j == some (.stepFinished (stageIdName r))))

set_option maxRecDepth 10000

/-- C4: the Model Gateway call operation never raises - it is a total
function into an optional result - and any transport error, timeout or
non-success HTTP status is mapped to the unavailable result (none);
whenever the effective credential fails the validity check (non-empty,
length above ten, not the known placeholder), the call short-circuits to
unavailable without attempting a network request. -/
theorem c4_gateway_error_handling :
    (∀ sk k, (callGroqApi sk k .exn).1 = none) ∧
    (∀ sk k, (callGroqApi sk k .timeout).1 = none) ∧
    (∀ sk k st c, st ≠ 200 → (callGroqApi sk k (.resp st c)).1 = none) ∧
    (∀ sk k net, isValidKey (effectiveKey sk k) = false →
      callGroqApi sk k net = (none, false)) := by
  refine ⟨?_, ?_, ?_, ?_⟩
  · intro sk k
    by_cases h : isValidKey (effectiveKey sk k) <;> simp [callGroqApi, h]
  · intro sk k
    by_cases h : isValidKey (effectiveKey sk k) <;> simp [callGroqApi, h]
  · intro sk k st c hst
    by_cases h : isValidKey (effectiveKey sk k) <;> simp [callGroqApi, h, hst]
  · intro sk k net h
    simp [callGroqApi, h]

/-- Witness for C4 at concrete inputs: status 500 maps to unavailable, and
an empty settings key with no per-request key short-circuits with no
network attempt. -/
theorem c4_gateway_error_handling_witness :
    ((500 : Nat) ≠ 200 ∧ (callGroqApi (str "short") none (.resp 500 (str "err"))).1 = none) ∧
    (isValidKey (effectiveKey [] none) = false ∧ callGroqApi [] none .exn = (none, false)) :=
  ⟨⟨by decide, c4_gateway_error_handling.2.2.1 (str "short") none 500 (str "err") (by decide)⟩,
   ⟨by decide, c4_gateway_error_handling.2.2.2 [] none .exn (by decide)⟩⟩

/-- The current_code update of process_agent_fixes (main.py): the same
guard and whole-artifact replacement as the orchestrator's applyStage. -/
def processFixesCode (cur : Json) (d : Json) : Json :=
  if getTruthy d "fixed_code" && getTruthy d "fixes_applied" then
    (objGet d "fixed_code").getD .null
  else cur

/-- C9: no-op stages leave the artifact unchanged.  For every stage result
with falsy fixes_applied (or falsy fixed_code), the orchestrator's
per-stage application and the streaming endpoint's process_agent_fixes
both return the artifact byte-for-byte unchanged (and append no fixes). -/
theorem c9_noop_stage_preserves_artifact
    (agent : String) (art : Json) (d : Json) (fixes : List (String × Json))
    (h : getTruthy d "fixes_applied" = false ∨ getTruthy d "fixed_code" = false) :
    applyStage agent d art fixes = (art, fixes) ∧ processFixesCode art d = art := by
  rcases h with h | h <;> simp [applyStage, processFixesCode, h]

/-- Witness for C9: a result carrying only a status leaves a concrete
artifact unchanged. -/
theorem c9_noop_stage_preserves_artifact_witness :
    getTruthy (.obj [("status", Json.str "ok")]) "fixes_applied" = false ∧
    applyStage "Validator" (.obj [("status", Json.str "ok")]) (.str "x") [] = (.str "x", []) ∧
    processFixesCode (.str "x") (.obj [("status", Json.str "ok")]) = .str "x" :=
  ⟨rfl,
   (c9_noop_stage_preserves_artifact "Validator" (.str "x") (.obj [("status", Json.str "ok")]) []
      (Or.inl rfl)).1,
   (c9_noop_stage_preserves_artifact "Validator" (.str "x") (.obj [("status", Json.str "ok")]) []
      (Or.inl rfl)).2⟩

/-- C10: every heuristic-fallback stage result (basic scan, basic test,
basic validate) carries fixed_code None and fixes_applied equal to the
empty list, so the orchestrator's stage application never modifies the
artifact on a fallback result, while the result still carries one of the
stage's status tags. -/
theorem c10_fallback_results_are_noops (code : Str) :
    (objGet (basicScan code) "fixed_code" = some .null ∧
     objGet (basicScan code) "fixes_applied" = some (.arr []) ∧
     (∀ agent art fixes, applyStage agent (basicScan code) art fixes = (art, fixes)) ∧
     (objGet (basicScan code) "status" = some (.str "secure") ∨
      objGet (basicScan code) "status" = some (.str "vulnerabilities_found"))) ∧
    (objGet (basicTest code) "fixed_code" = some .null ∧
     objGet (basicTest code) "fixes_applied" = some (.arr []) ∧
     (∀ agent art fixes, applyStage agent (basicTest code) art fixes = (art, fixes)) ∧
     (objGet (basicTest code) "status" = some (.str "all_passed") ∨
      objGet (basicTest code) "status" = some (.str "warnings"))) ∧
    (objGet (basicValidate code) "fixed_code" = some .null ∧
     objGet (basicValidate code) "fixes_applied" = some (.arr []) ∧
     (∀ agent art fixes, applyStage agent (basicValidate code) art fixes = (art, fixes)) ∧
     (objGet (basicValidate code) "status" = some (.str "passed") ∨
      objGet (basicValidate code) "status" = some (.str "warnings"))) := by
  refine ⟨⟨rfl, rfl, fun _ _ _ => rfl, ?_⟩, ⟨rfl, rfl, fun _ _ _ => rfl, ?_⟩,
    ⟨rfl, rfl, fun _ _ _ => rfl, ?_⟩⟩
  · cases h : (basicScanVulns code).isEmpty
    · right; simp [basicScan, h, objGet, lookupField]
    · left; simp [basicScan, h, objGet, lookupField]
  · cases h : (containsSub (str "try:") code &&
      (containsSub (str "if ") code &&
        (containsSub (str "not ") code || containsSub (str "is None") code)))
    · right; simp [basicTest, h, objGet, lookupField]
    · left; simp [basicTest, h, objGet, lookupField]
  · cases h : (lineIssues (splitOnNl code) ++
      (if containsSub (str "import *") code then
        ["Wildcard imports detected - avoid \x27from x import *\x27"] else [])).isEmpty
    · right; simp [basicValidate, h, objGet, lookupField]
    · left; simp [basicValidate, h, objGet, lookupField]

/-- C8 counterexample: the claim quantifies over every code string
containing "eval(" and a literal password assignment, but a string that
also contains another dangerous pattern (here "exec(") yields three
vulnerabilities and a risk score of 75, not the claimed two and 50. -/
theorem c8_counterexample :
    containsSub (str "eval(") (str "eval(x)\nexec(y)\npassword = \"x\"") = true ∧
    containsSub (str "password = \"x\"") (str "eval(x)\nexec(y)\npassword = \"x\"") = true ∧
    (basicScanVulns (str "eval(x)\nexec(y)\npassword = \"x\"")).length = 3 ∧
    objGet (basicScan (str "eval(x)\nexec(y)\npassword = \"x\"")) "risk_score" =
      some (.num "75") :=
  ⟨rfl, rfl, rfl, rfl⟩

/-- C8 (amended): for every code string that matches the eval( and
password = patterns and none of the seven other dangerous patterns, the
basic security scan returns exactly the two vulnerabilities, with
severities CRITICAL and MEDIUM in that order, and a risk score of 50. -/
theorem c8_basic_scan_two_vulns (code : Str)
    (hEval : patHits "eval(" code = true)
    (hPass : patHits "password =" code = true)
    (hExec : patHits "exec(" code = false)
    (hPickle : patHits "pickle.loads(" code = false)
    (hOs : patHits "os.system(" code = false)
    (hSub : patHits "subprocess.call(" code = false)
    (hShell : patHits "shell=True" code = false)
    (hApi : patHits "api_key =" code = false)
    (hSecret : patHits "secret =" code = false) :
    basicScanVulns code =
      [("eval(", "CRITICAL", "Code Injection", "eval() can execute arbitrary code"),
       ("password =", "MEDIUM", "Hardcoded Secret", "Possible hardcoded password")] ∧
    objGet (basicScan code) "risk_score" = some (.num "50") ∧
    objGet (basicScan code) "status" = some (.str "vulnerabilities_found") := by
  have hv : basicScanVulns code =
      [("eval(", "CRITICAL", "Code Injection", "eval() can execute arbitrary code"),
       ("password =", "MEDIUM", "Hardcoded Secret", "Possible hardcoded password")] := by
    simp [basicScanVulns, dangerousPatterns, List.filter, hEval, hPass, hExec, hPickle,
      hOs, hSub, hShell, hApi, hSecret]
  refine ⟨hv, ?_, ?_⟩
  · simp [basicScan, hv, objGet, lookupField, natStr, Nat.repr]
    rfl
  · simp [basicScan, hv, objGet, lookupField]

/-- Witness for C8 at a concrete input containing exactly the two
patterns of the scenario. -/
theorem c8_basic_scan_two_vulns_witness :
    basicScanVulns (str "eval(x)\npassword = \"x\"") =
      [("eval(", "CRITICAL", "Code Injection", "eval() can execute arbitrary code"),
       ("password =", "MEDIUM", "Hardcoded Secret", "Possible hardcoded password")] ∧
    objGet (basicScan (str "eval(x)\npassword = \"x\"")) "risk_score" = some (.num "50") ∧
    objGet (basicScan (str "eval(x)\npassword = \"x\"")) "status" =
      some (.str "vulnerabilities_found") :=
  c8_basic_scan_two_vulns (str "eval(x)\npassword = \"x\"") (by decide) (by decide)
    (by decide) (by decide) (by decide) (by decide) (by decide) (by decide) (by decide)

/-- A three-file artifact (three separator markers), the failing input of
C1. -/
def c1Art3 : Str := str "<!-- a.py -->\npass\n<!-- b.py -->\npass\n<!-- c.py -->\npass"

/-- The two-file fixed_code a stage returns for that artifact: one file
was dropped. -/
def c1Fixed2 : Str := str "<!-- a.py -->\npass\n<!-- b.py -->\npass"

/-- The security stage's raw model response carrying the two-marker
fixed_code together with a non-empty fixes_applied list. -/
def c1SecResp : Str :=
  str "\x7b\"status\": \"vulnerabilities_found\", \"fixes_applied\": [\"merged files\"], \"fixed_code\": \"<!-- a.py -->\\npass\\n<!-- b.py -->\\npass\"\x7d"

/-- Oracle for the C1 run: validation and testing fall back to their
heuristics, security returns the marker-dropping response. -/
def c1Oracle : Oracle := ⟨none, none, none, some c1SecResp⟩

/-- C1: evaluating the orchestrator at the failing input shows that a
fixed_code whose marker count differs from the artifact's is applied, not
discarded: the three-marker artifact is replaced by the two-marker
fixed_code, contradicting the claimed (and spec-mandated) discard-and-
retain behavior.  No marker-count verification exists anywhere in
run_workflow, run_agents_on_code or the multi-file stage loop. -/
theorem c1_marker_mismatch_applied :
    countMarkers c1Art3 = 3 ∧
    countMarkers c1Fixed2 = 2 ∧
    runAgentsOnCode c1Oracle c1Art3 =
      some ⟨.str (String.mk c1Fixed2), agentsHistory,
            [("Security", .arr [.str "merged files"])]⟩ ∧
    c1Fixed2 ≠ c1Art3 :=
  ⟨rfl, rfl, by rfl, by decide⟩

/-- When the model is unavailable at every stage, the run returns the mock
artifact unchanged, the full four-step history and no fixes: every
heuristic fallback is a no-op on the artifact. -/
theorem runWorkflow_unavailable (prompt : Str) :
    runWorkflow unavailableOracle prompt =
      some ⟨.str (String.mk (mockGenerate prompt)), fullHistory, []⟩ := rfl

/-- The mock artifact is never empty: it starts with a fixed template. -/
theorem mockGenerate_ne_nil (prompt : Str) : mockGenerate prompt ≠ [] := by
  intro h
  have := congrArg List.length h
  simp [mockGenerate, str] at this

/-- C3 counterexample: with an available model whose generator response is
a bare markdown fence, stripping leaves an empty artifact, yet the run
still terminates with every workflow step marked completed - so the
claimed unconditional non-emptiness of the returned Code Artifact is
false. -/
theorem c3_counterexample :
    runWorkflow ⟨some (str "```python\n```"), none, none, none⟩ (str "hi") =
      some ⟨.str (String.mk []), fullHistory, []⟩ := by rfl

/-- C3 (amended): for every prompt and oracle, a completed run's workflow
history holds exactly one step per stage (Code Generator, Validator,
Testing, Security), each with the orchestrator's terminal status tag
"completed"; and for every valid non-empty prompt, a run during which the
external model is unavailable at every stage terminates with that history
and a non-empty Code Artifact (the mock).  Non-emptiness holds whenever
the generator's model call is unavailable; it can fail only when an
available model's response strips to the empty string. -/
theorem c3_run_completion :
    (∀ o prompt r, runWorkflow o prompt = some r → r.history = fullHistory) ∧
    (∀ prompt : Str, prompt ≠ [] →
      runWorkflow unavailableOracle prompt =
        some ⟨.str (String.mk (mockGenerate prompt)), fullHistory, []⟩ ∧
      mockGenerate prompt ≠ []) := by
  constructor
  · intro o prompt r h
    simp only [runWorkflow] at h
    split at h
    · exact absurd h (by simp)
    · split at h
      · exact absurd h (by simp)
      · split at h
        · exact absurd h (by simp)
        · cases h; rfl
  · intro prompt _
    exact ⟨runWorkflow_unavailable prompt, mockGenerate_ne_nil prompt⟩

/-- Witness for C3 at the concrete prompt "hi" with the all-unavailable
oracle. -/
theorem c3_run_completion_witness :
    (runWorkflow unavailableOracle (str "hi") =
      some ⟨.str (String.mk (mockGenerate (str "hi"))), fullHistory, []⟩ ∧
     mockGenerate (str "hi") ≠ []) ∧
    (RunOut.history ⟨.str (String.mk (mockGenerate (str "hi"))), fullHistory, []⟩ =
      fullHistory) :=
  ⟨c3_run_completion.2 (str "hi") (by decide),
   c3_run_completion.1 unavailableOracle (str "hi") _
     (c3_run_completion.2 (str "hi") (by decide)).1⟩

/-- A parsed object with any retrievable key is a non-empty dict, hence
truthy in Python. -/
theorem pyTruthy_of_objGet {p : Json} {k : String} {v : Json}
    (h : objGet p k = some v) : pyTruthy p = true := by
  cases p <;> simp [objGet] at h
  case obj fields =>
    cases fields
    · simp [lookupField] at h
    · simp [pyTruthy]

/-- The heuristic classifier returns either the multi verdict citing the
first matching signal, or the single verdict when no signal matches. -/
theorem heuristicClassify_shape (prompt : Str) :
    (∃ sig, sig ∈ multiSignals ∧ containsSub (str sig) (lowerStr prompt) = true ∧
      heuristicClassify prompt =
        .obj [("mode", .str "multi"),
              ("reason", .str ("detected \x27" ++ sig ++ "\x27 in prompt"))]) ∨
    (heuristicClassify prompt = .obj [("mode", .str "single")] ∧
      ∀ sig ∈ multiSignals, containsSub (str sig) (lowerStr prompt) = false) := by
  unfold heuristicClassify
  cases hf : multiSignals.find? (fun sig => containsSub (str sig) (lowerStr prompt)) with
  | none =>
    right
    refine ⟨rfl, fun sig hs => ?_⟩
    have := List.find?_eq_none.mp hf sig hs
    simpa using this
  | some sig =>
    left
    refine ⟨sig, List.mem_of_find?_eq_some hf, ?_, rfl⟩
    have := List.find?_some hf
    simpa using this

/-- C7: classification escalation is monotone - if the heuristic keyword
scan or the parsed model verdict is multi, classify returns multi (the
heuristic never downgrades a model multi) - and when the model returns
mode single while the prompt contains "dashboard", the result is the
heuristic's multi verdict with a reason citing the detected keyword. -/
theorem c7_classification_escalation :
    (∀ (prompt : Str) (resp : Option Str),
      (objGet (heuristicClassify prompt) "mode" = some (.str "multi") ∨
        (∃ p, parseJsonResponse resp = some p ∧
          objGet p "mode" = some (.str "multi"))) →
      objGet (classify resp prompt) "mode" = some (.str "multi")) ∧
    (∀ (prompt : Str) (resp : Option Str) (p : Json),
      parseJsonResponse resp = some p →
      objGet p "mode" = some (.str "single") →
      containsSub (str "dashboard") (lowerStr prompt) = true →
      ∃ sig, sig ∈ multiSignals ∧ containsSub (str sig) (lowerStr prompt) = true ∧
        classify resp prompt =
          .obj [("mode", .str "multi"),
                ("reason", .str ("detected \x27" ++ sig ++ "\x27 in prompt"))]) := by
  constructor
  · intro prompt resp hh
    cases hpr : parseJsonResponse resp with
    | none =>
      have hc : classify resp prompt = heuristicClassify prompt := by
        simp [classify, hpr]
      rw [hc]
      rcases hh with hh | ⟨q, hq, _⟩
      · exact hh
      · rw [hpr] at hq; exact absurd hq (by simp)
    | some p =>
      cases hm : objGet p "mode" with
      | none =>
        have hc : classify resp prompt = heuristicClassify prompt := by
          simp [classify, hpr, hm]
        rw [hc]
        rcases hh with hh | ⟨q, hq, hqm⟩
        · exact hh
        · rw [hpr] at hq
          cases Option.some.inj hq
          rw [hm] at hqm
          exact absurd hqm (by simp)
      | some val =>
        cases val
        case str m =>
          by_cases hmulti : m = "multi"
          · subst hmulti
            have hc : classify resp prompt = p := by
              simp [classify, hpr, hm, pyTruthy_of_objGet hm]
            rw [hc]
            exact hm
          · by_cases hsingle : m = "single"
            · subst hsingle
              rcases heuristicClassify_shape prompt with ⟨sig, _, _, hh2⟩ | ⟨hh2, hnone⟩
              · have hhm : objGet (heuristicClassify prompt) "mode" =
                    some (.str "multi") := by
                  rw [hh2]; simp [objGet, lookupField]
                have hc : classify resp prompt = heuristicClassify prompt := by
                  simp [classify, hpr, hm, pyTruthy_of_objGet hm, hhm]
                rw [hc]
                exact hhm
              · have hhm : objGet (heuristicClassify prompt) "mode" =
                    some (.str "single") := by
                  rw [hh2]; simp [objGet, lookupField]
                have hc : classify resp prompt = p := by
                  simp [classify, hpr, hm, pyTruthy_of_objGet hm, hhm]
                rw [hc]
                rcases hh with hh | ⟨q, hq, hqm⟩
                · rw [hhm] at hh
                  exact absurd hh (by simp)
                · rw [hpr] at hq
                  cases Option.some.inj hq
                  rw [hm] at hqm
                  exact absurd hqm (by simp)
            · have hc : classify resp prompt = heuristicClassify prompt := by
                simp [classify, hpr, hm, hmulti, hsingle]
              rw [hc]
              rcases hh with hh | ⟨q, hq, hqm⟩
              · exact hh
              · rw [hpr] at hq
                cases Option.some.inj hq
                rw [hm] at hqm
                have : m = "multi" := by simpa using hqm
                exact absurd this hmulti
        all_goals
          have hc : classify resp prompt = heuristicClassify prompt := by
            simp [classify, hpr, hm]
        all_goals
          rw [hc]
          rcases hh with hh | ⟨q, hq, hqm⟩
          · exact hh
          · rw [hpr] at hq
            cases Option.some.inj hq
            rw [hm] at hqm
            exact absurd hqm (by simp)
  · intro prompt resp p hpr hm hdash
    rcases heuristicClassify_shape prompt with ⟨sig, hmem, hsig, hh2⟩ | ⟨_, hall⟩
    · refine ⟨sig, hmem, hsig, ?_⟩
      have hhm : objGet (heuristicClassify prompt) "mode" = some (.str "multi") := by
        rw [hh2]; simp [objGet, lookupField]
      have hc : classify resp prompt = heuristicClassify prompt := by
        simp [classify, hpr, hm, pyTruthy_of_objGet hm, hhm]
      rw [hc, hh2]
    · have := hall "dashboard" (by decide)
      rw [hdash] at this
      exact absurd this (by simp)

/-- Witness for C7 at concrete inputs: the model says single for "make a
sales dashboard", the result is multi citing the detected keyword. -/
theorem c7_classification_escalation_witness :
    objGet (classify (some (str "\x7b\"mode\": \"single\"\x7d"))
        (str "make a sales dashboard")) "mode" = some (.str "multi") ∧
    (∃ sig, sig ∈ multiSignals ∧
      containsSub (str sig) (lowerStr (str "make a sales dashboard")) = true ∧
      classify (some (str "\x7b\"mode\": \"single\"\x7d")) (str "make a sales dashboard") =
        .obj [("mode", .str "multi"),
              ("reason", .str ("detected \x27" ++ sig ++ "\x27 in prompt"))]) :=
  ⟨c7_classification_escalation.1 (str "make a sales dashboard")
      (some (str "\x7b\"mode\": \"single\"\x7d")) (Or.inl (by rfl)),
   c7_classification_escalation.2 (str "make a sales dashboard")
      (some (str "\x7b\"mode\": \"single\"\x7d")) (.obj [("mode", .str "single")])
      (by rfl) (by rfl) (by decide)⟩

/-- Every entry the status extraction produces is keyed "status". -/
theorem s4StatusE_keys (r : Str) : ∀ kv ∈ s4StatusE r, kv.1 = "status" := by
  intro kv hkv
  unfold s4StatusE at hkv
  split at hkv <;> simp_all

/-- Every entry an array extraction produces carries its label. -/
theorem s4ArrE_keys (key : Str) (label : String) (r : Str) :
    ∀ kv ∈ s4ArrE key label r, kv.1 = label := by
  intro kv hkv
  unfold s4ArrE at hkv
  split at hkv <;> simp_all

/-- Every entry the fixed_code extraction produces is keyed
"fixed_code". -/
theorem s4FixedE_keys (r : Str) (fc : List (String × Json))
    (h : s4FixedE r = some fc) : ∀ kv ∈ fc, kv.1 = "fixed_code" := by
  intro kv hkv
  unfold s4FixedE at h
  split at h
  · rcases Option.map_eq_some'.mp h with ⟨d, _, hd⟩
    subst hd
    simp_all
  · cases h
    simp at hkv

/-- C5: the response interpreter is total - it never raises, returning a
mapping or none for every input including none - and its final
regex-extraction fallback returns only the extracted subset of status,
fixed_code, fixes_applied and issues, and only when status or fixed_code
was recovered with a truthy value; otherwise the whole parse returns
none.  The last conjunct ties the cascade together: when strategy 1's
brace-substring parse and strategies 2-3 all fail, the result is exactly
strategy 4's. -/
theorem c5_interpreter_totality_and_fallback :
    parseJsonResponse none = none ∧
    (∀ r ex, s4Extract r = some ex →
      ∀ kv ∈ ex, kv.1 = "status" ∨ kv.1 = "fixed_code" ∨
        kv.1 = "fixes_applied" ∨ kv.1 = "issues") ∧
    (∀ r, s4Extract r = none → strat4 r = none) ∧
    (∀ r ex, s4Extract r = some ex →
      getTruthy (.obj ex) "status" = false → getTruthy (.obj ex) "fixed_code" = false →
      strat4 r = none) ∧
    (∀ r ex, s4Extract r = some ex →
      (getTruthy (.obj ex) "status" = true ∨ getTruthy (.obj ex) "fixed_code" = true) →
      strat4 r = some (.obj ex)) ∧
    (∀ r i j, r ≠ [] → firstIdx '{' r = some i → lastIdx '}' r = some j → i < j + 1 →
      jsonParse (pySlice i (j + 1) r) = none → strat2 r = none → strat3 r = none →
      parseJsonResponse (some r) = strat4 r) := by
  refine ⟨rfl, ?_, ?_, ?_, ?_, ?_⟩
  · intro r ex h kv hkv
    unfold s4Extract at h
    rcases Option.map_eq_some'.mp h with ⟨fc, hfc, hex⟩
    subst hex
    rcases List.mem_append.mp hkv with hkv' | hkv'
    · rcases List.mem_append.mp hkv' with hkv'' | hkv''
      · rcases List.mem_append.mp hkv'' with h1 | h1
        · exact Or.inl (s4StatusE_keys r kv h1)
        · exact Or.inr (Or.inl (s4FixedE_keys r fc hfc kv h1))
      · exact Or.inr (Or.inr (Or.inl (s4ArrE_keys (str "fixes_applied") "fixes_applied" r kv hkv'')))
    · exact Or.inr (Or.inr (Or.inr (s4ArrE_keys (str "issues") "issues" r kv hkv')))
  · intro r h
    simp [strat4, h]
  · intro r ex h h1 h2
    simp [strat4, h, h1, h2]
  · intro r ex h hd
    rcases hd with hd | hd <;> simp [strat4, h, hd]
  · intro r i j hne hfi hla hlt hjp h2 h3
    simp [parseJsonResponse, hne, hfi, hla, hlt, hjp, strategies234, h2, h3]

/-- Witness for C5 at a concrete malformed response (a trailing comma
defeats strategies 1-3, regex extraction recovers the status field). -/
theorem c5_interpreter_totality_and_fallback_witness :
    parseJsonResponse (some (str "\x7b\"status\": \"ok\", \x7d")) =
      strat4 (str "\x7b\"status\": \"ok\", \x7d") ∧
    strat4 (str "\x7b\"status\": \"ok\", \x7d") = some (.obj [("status", .str "ok")]) ∧
    parseJsonResponse none = none :=
  ⟨c5_interpreter_totality_and_fallback.2.2.2.2.2 (str "\x7b\"status\": \"ok\", \x7d")
      0 17 (by decide) (by decide) (by decide) (by decide) (by rfl) (by rfl) (by rfl),
   c5_interpreter_totality_and_fallback.2.2.2.2.1 (str "\x7b\"status\": \"ok\", \x7d")
      [("status", Json.str "ok")] (by rfl) (Or.inl (by rfl)),
   c5_interpreter_totality_and_fallback.1⟩

/-- Searching for a character in an append whose left part avoids it finds
it in the right part, offset by the left length. -/
theorem firstIdx_append_of_not_mem {c : Char} {l1 : Str} (h : c ∉ l1) (l2 : Str) :
    firstIdx c (l1 ++ l2) = (firstIdx c l2).map (· + l1.length) := by
  induction l1 with
  | nil =>
    cases h2 : firstIdx c l2 <;> simp [h2]
  | cons a as ih =>
    have hac : ¬(a = c) := fun he => h (he ▸ List.mem_cons_self a as)
    have ih' := ih (fun hm => h (List.mem_cons_of_mem _ hm))
    simp only [List.cons_append, firstIdx, hac, if_false]
    cases h2 : firstIdx c l2
    all_goals simp [h2, ih']
    all_goals omega

/-- The first index of a character at the head of a list is zero. -/
theorem firstIdx_cons_self (c : Char) (l : Str) : firstIdx c (c :: l) = some 0 := by
  simp [firstIdx]

/-- The last index of the closing brace in a clean-wrapped text is the end
of the embedded document. -/
theorem lastIdx_wrapped {s post : Str} (pre : Str)
    (hlast : s.getLast? = some '}') (hpost : '}' ∉ post) :
    lastIdx '}' (pre ++ (s ++ post)) = some (pre.length + s.length - 1) := by
  have hsne : s ≠ [] := by intro he; rw [he] at hlast; simp at hlast
  have hs1 : 1 ≤ s.length := List.length_pos.mpr hsne
  have hrev : ∃ t, s.reverse = '}' :: t := by
    cases hr : s.reverse with
    | nil =>
      exact absurd (List.reverse_eq_nil_iff.mp hr) hsne
    | cons a t =>
      refine ⟨t, ?_⟩
      have ha : s.getLast? = some a := by
        rw [← List.head?_reverse, hr]; rfl
      rw [ha] at hlast
      cases hlast
      rfl
  obtain ⟨t, ht⟩ := hrev
  have hpost' : '}' ∉ post.reverse := fun hm => hpost (List.mem_reverse.mp hm)
  unfold lastIdx
  rw [List.reverse_append, List.reverse_append, ht]
  rw [List.append_assoc]
  rw [firstIdx_append_of_not_mem hpost']
  show Option.map _ (Option.map _ (firstIdx '}' ('}' :: (t ++ pre.reverse)))) = _
  rw [firstIdx_cons_self]
  simp only [Option.map_some']
  have hlen : (pre ++ (s ++ post)).length = pre.length + s.length + post.length := by
    simp [Nat.add_assoc]
  rw [hlen]
  simp only [List.length_reverse]
  congr 1
  omega

/-- C6 (amended): for every syntactically valid JSON object string `s`
(starting with an opening brace and ending with a closing brace) and every
wrapper whose prefix contains no opening brace and whose suffix contains
no closing brace, parsing the wrapped text yields exactly the mapping of
the embedded JSON: strategy 1's first-brace/last-brace substring is then
`s` itself. -/
theorem c6_roundtrip_with_clean_wrapper
    (pre s post : Str) (j : Json)
    (hjson : jsonParse s = some j)
    (hhead : s.head? = some '{')
    (hlast : s.getLast? = some '}')
    (hpre : '{' ∉ pre)
    (hpost : '}' ∉ post) :
    parseJsonResponse (some (pre ++ s ++ post)) = some j := by
  have hsne : s ≠ [] := by intro he; rw [he] at hhead; simp at hhead
  have hs1 : 1 ≤ s.length := List.length_pos.mpr hsne
  have hfi : firstIdx '{' (pre ++ (s ++ post)) = some pre.length := by
    rw [firstIdx_append_of_not_mem hpre]
    cases s with
    | nil => simp at hhead
    | cons a tl =>
      have ha : a = '{' := by simpa using hhead
      subst ha
      simp [firstIdx]
  have hla : lastIdx '}' (pre ++ (s ++ post)) = some (pre.length + s.length - 1) :=
    lastIdx_wrapped pre hlast hpost
  have hslice : pySlice pre.length (pre.length + s.length - 1 + 1) (pre ++ (s ++ post)) = s := by
    have h1 : pre.length + s.length - 1 + 1 = pre.length + s.length := by omega
    rw [h1]
    unfold pySlice
    rw [List.drop_left]
    have h2 : pre.length + s.length - pre.length = s.length := by omega
    rw [h2, List.take_left]
  have hlt : pre.length < pre.length + s.length - 1 + 1 := by omega
  simp [parseJsonResponse, hfi, hla, hlt, hslice, hjson, hsne]

/-- C6 counterexample: the claim as stated quantifies over arbitrary
surrounding prose, but a wrapper containing an extra opening brace before
the JSON makes the first-brace/last-brace substring malformed; every
strategy then fails and parse returns none instead of the embedded
mapping. -/
theorem c6_counterexample :
    jsonParse (str "\x7b\"a\": 1\x7d") = some (.obj [("a", .num "1")]) ∧
    parseJsonResponse (some (str "\x7b " ++ str "\x7b\"a\": 1\x7d")) = none :=
  ⟨rfl, by rfl⟩

/-- Witness for C6 at a concrete prose/code-fence wrapper. -/
theorem c6_roundtrip_with_clean_wrapper_witness :
    parseJsonResponse
        (some (str "Sure! ```json\n" ++ str "\x7b\"a\": 1\x7d" ++ str "\n``` hope this helps")) =
      some (.obj [("a", .num "1")]) :=
  c6_roundtrip_with_clean_wrapper (str "Sure! ```json\n") (str "\x7b\"a\": 1\x7d")
    (str "\n``` hope this helps") (.obj [("a", .num "1")])
    (by rfl) (by rfl) (by rfl) (by decide) (by decide)

/-- A sorted list all of whose elements are at least `c`; the invariant
threaded while assembling the event-key sequence from the right. -/
def SortedGe (c : Nat) (l : List Nat) : Prop :=
  List.Sorted (· ≤ ·) l ∧ ∀ y ∈ l, c ≤ y

/-- The empty key sequence is sorted above any bound. -/
theorem sortedGe_nil (c : Nat) : SortedGe c [] := ⟨List.sorted_nil, by simp⟩

/-- Weakening the lower bound. -/
theorem sortedGe_mono {c x : Nat} {l : List Nat} (hcx : c ≤ x) (h : SortedGe x l) :
    SortedGe c l :=
  ⟨h.1, fun y hy => le_trans hcx (h.2 y hy)⟩

/-- Extending a sorted-above-`x` sequence with a head between the bounds. -/
theorem sortedGe_cons {c x : Nat} {l : List Nat} (hcx : c ≤ x) (h : SortedGe x l) :
    SortedGe c (x :: l) := by
  constructor
  · exact List.sorted_cons.mpr ⟨h.2, h.1⟩
  · intro y hy
    rcases List.mem_cons.mp hy with rfl | hy
    · exact hcx
    · exact le_trans hcx (h.2 y hy)

/-- Extending with a run of keys equal to the bound. -/
theorem sortedGe_replicate_append_self {x : Nat} {l : List Nat} (m : Nat)
    (h : SortedGe x l) : SortedGe x (List.replicate m x ++ l) := by
  induction m with
  | zero => simpa using h
  | succ k ih =>
    rw [List.replicate_succ, List.cons_append]
    exact sortedGe_cons (le_refl x) ih

/-- Extending with a run of equal keys above the bound. -/
theorem sortedGe_replicate_append {c x : Nat} {l : List Nat} (hcx : c ≤ x) (m : Nat)
    (h : SortedGe x l) : SortedGe c (List.replicate m x ++ l) :=
  sortedGe_mono hcx (sortedGe_replicate_append_self m h)


theorem filterMap_stageKey_tm (n : Nat) :
    (List.replicate n Ev.textMessageContent).filterMap stageKey = List.replicate n 3 := by
  induction n with
  | zero => rfl
  | succ k ih => simp [List.replicate_succ, ih, stageKey, stageRankOf]

theorem filter_lifecycle_tm (n : Nat) :
    (List.replicate n Ev.textMessageContent).filter isLifecycle = [] := by
  induction n with
  | zero => rfl
  | succ k ih => simp [List.replicate_succ, ih, isLifecycle]

theorem quadflat_filterMap (a : String) (r : Nat) (ha : agentRank a = some r) (k : Nat) :
    ((List.replicate k (toolQuad a)).flatten).filterMap stageKey =
      List.replicate (4 * k) (2 * r + 1) := by
  induction k with
  | zero => rfl
  | succ m ih =>
    have hq : (toolQuad a).filterMap stageKey = List.replicate 4 (2 * r + 1) := by
      simp [toolQuad, stageKey, stageRankOf, ha, List.replicate]
    rw [List.replicate_succ, List.flatten_cons, List.filterMap_append, hq, ih,
      ← List.replicate_add]
    congr 1
    omega

theorem quadflat_filter_lifecycle (a : String) (k : Nat) :
    ((List.replicate k (toolQuad a)).flatten).filter isLifecycle = [] := by
  induction k with
  | zero => rfl
  | succ m ih =>
    simp [List.replicate_succ, toolQuad, isLifecycle, ih]

theorem fixEventsOf_filterMap (a src : String) (r : Nat) (ha : agentRank a = some r)
    (hs : sourceRank src = some r) (d : Json) :
    ∃ m, (fixEventsOf a src d).filterMap stageKey = List.replicate m (2 * r + 1) := by
  unfold fixEventsOf
  split
  · cases hit : pyIterItems ((objGet d "fixes_applied").getD .null) with
    | none => exact ⟨0, by simp [hit]⟩
    | some items =>
      refine ⟨4 * items.length + 1, ?_⟩
      simp only [hit]
      unfold fixEvents
      rw [List.filterMap_append, quadflat_filterMap a r ha]
      simp [stageKey, stageRankOf, hs]
      rw [← List.replicate_succ', List.replicate_succ]
  · exact ⟨0, rfl⟩

theorem fixEventsOf_filter_lifecycle (a src : String) (d : Json) :
    (fixEventsOf a src d).filter isLifecycle = [] := by
  unfold fixEventsOf
  split
  · cases hit : pyIterItems ((objGet d "fixes_applied").getD .null) with
    | none => simp [hit]
    | some items =>
      simp only [hit]
      unfold fixEvents
      rw [List.filter_append, quadflat_filter_lifecycle]
      simp [isLifecycle]
  · rfl

theorem stageEvents_snd (sid aA aT src : String) (mOk : Json → Bool) (d : Json) :
    (stageEvents sid aA aT src mOk d).2 = stageOk mOk d := by
  by_cases h : stageOk mOk d <;> simp [stageEvents, h]

theorem stageEvents_ok (sid aA aT src : String) (mOk : Json → Bool) (d : Json)
    (h : stageOk mOk d = true) :
    stageEvents sid aA aT src mOk d =
      (stagePre sid aA ++ fixEventsOf aT src d ++ stagePost sid aA, true) := by
  simp [stageEvents, h]

theorem stageEvents_fail (sid aA aT src : String) (mOk : Json → Bool) (d : Json)
    (h : stageOk mOk d = false) :
    stageEvents sid aA aT src mOk d = (stagePre sid aA, false) := by
  simp [stageEvents, h]

theorem stageEvents_filterMap (sid aA aT src : String) (mOk : Json → Bool) (r : Nat)
    (h1 : stepRank sid = some r) (h2 : agentRank aA = some r)
    (h3 : agentRank aT = some r) (h4 : sourceRank src = some r) (d : Json) :
    ∃ m, (stageEvents sid aA aT src mOk d).1.filterMap stageKey =
      2 * r :: List.replicate m (2 * r + 1) := by
  by_cases h : stageOk mOk d
  · obtain ⟨m, hm⟩ := fixEventsOf_filterMap aT src r h3 h4 d
    refine ⟨m + 2 + 1, ?_⟩
    rw [stageEvents_ok sid aA aT src mOk d h]
    simp [List.filterMap_append, hm, stagePre, stagePost, stageKey, stageRankOf, h1, h2]
    rw [show [2 * r + 1, 2 * r + 1] = List.replicate 2 (2 * r + 1) from rfl,
      ← List.replicate_add]
    simp [List.replicate_succ]
  · refine ⟨1, ?_⟩
    rw [stageEvents_fail sid aA aT src mOk d (by simpa using h)]
    simp [stagePre, stageKey, stageRankOf, h1, h2, List.replicate]

theorem stageEvents_filter_ok (sid aA aT src : String) (mOk : Json → Bool) (d : Json)
    (h : stageOk mOk d = true) :
    (stageEvents sid aA aT src mOk d).1.filter isLifecycle =
      [.stepStarted sid, .stepFinished sid] := by
  rw [stageEvents_ok sid aA aT src mOk d h]
  simp [stagePre, stagePost, List.filter_append, fixEventsOf_filter_lifecycle, isLifecycle]

theorem stageEvents_filter_fail (sid aA aT src : String) (mOk : Json → Bool) (d : Json)
    (h : stageOk mOk d = false) :
    (stageEvents sid aA aT src mOk d).1.filter isLifecycle = [.stepStarted sid] := by
  rw [stageEvents_fail sid aA aT src mOk d h]
  simp [stagePre, isLifecycle]

theorem singleFileRun_shape_vfail (n : Nat) (v t s : Json)
    (hv : stageOk valMsgOk v = false) :
    singleFileRun n v t s =
      Ev.runStarted :: (classifierBlock ++ (genBlock n ++
        stagePre "validator" "Validator")) := by
  simp [singleFileRun, stageEvents_snd, hv,
    stageEvents_fail "validator" "Validator" "Validator" "validator" valMsgOk v hv]

theorem singleFileRun_shape_tfail (n : Nat) (v t s : Json)
    (hv : stageOk valMsgOk v = true) (ht : stageOk testMsgOk t = false) :
    singleFileRun n v t s =
      Ev.runStarted :: (classifierBlock ++ (genBlock n ++
        ((stageEvents "validator" "Validator" "Validator" "validator" valMsgOk v).1 ++
          stagePre "testing" "Testing Agent"))) := by
  simp [singleFileRun, stageEvents_snd, hv, ht,
    stageEvents_fail "testing" "Testing Agent" "Testing" "testing" testMsgOk t ht]

theorem singleFileRun_shape_sfail (n : Nat) (v t s : Json)
    (hv : stageOk valMsgOk v = true) (ht : stageOk testMsgOk t = true)
    (hs : stageOk secMsgOk s = false) :
    singleFileRun n v t s =
      Ev.runStarted :: (classifierBlock ++ (genBlock n ++
        ((stageEvents "validator" "Validator" "Validator" "validator" valMsgOk v).1 ++
          ((stageEvents "testing" "Testing Agent" "Testing" "testing" testMsgOk t).1 ++
            stagePre "security" "Security Agent")))) := by
  simp [singleFileRun, stageEvents_snd, hv, ht, hs,
    stageEvents_fail "security" "Security Agent" "Security" "security" secMsgOk s hs]

theorem singleFileRun_shape_ok (n : Nat) (v t s : Json)
    (hv : stageOk valMsgOk v = true) (ht : stageOk testMsgOk t = true)
    (hs : stageOk secMsgOk s = true) :
    singleFileRun n v t s =
      Ev.runStarted :: (classifierBlock ++ (genBlock n ++
        ((stageEvents "validator" "Validator" "Validator" "validator" valMsgOk v).1 ++
          ((stageEvents "testing" "Testing Agent" "Testing" "testing" testMsgOk t).1 ++
            ((stageEvents "security" "Security Agent" "Security" "security" secMsgOk s).1 ++
              [Ev.stateSnapshot, Ev.runFinished]))))) := by
  simp [singleFileRun, stageEvents_snd, hv, ht, hs]

theorem genBlock_filterMap (n : Nat) :
    (genBlock n).filterMap stageKey = 2 :: List.replicate (n + 5) 3 := by
  simp [genBlock, List.filterMap_append, filterMap_stageKey_tm, stageKey, stageRankOf,
    stepRank, agentRank]
  have h1 : List.replicate n 3 ++ [(3 : Nat), 3, 3] = List.replicate (n + 3) 3 := by
    rw [show [(3 : Nat), 3, 3] = List.replicate 3 3 from rfl, ← List.replicate_add]
  rw [h1, show n + 5 = n + 3 + 1 + 1 from by omega]
  simp [List.replicate_succ]

theorem sorted_head_chain (n : Nat) (X : List Ev)
    (hX : SortedGe 4 (X.filterMap stageKey)) :
    List.Sorted (· ≤ ·)
      ((Ev.runStarted :: (classifierBlock ++ (genBlock n ++ X))).filterMap stageKey) := by
  have hhead : (Ev.runStarted :: (classifierBlock ++ (genBlock n ++ X))).filterMap stageKey
      = 0 :: 1 :: 1 :: 1 :: 2 :: (List.replicate (n + 5) 3 ++ X.filterMap stageKey) := by
    simp [classifierBlock, List.filterMap_append, genBlock_filterMap, stageKey,
      stageRankOf, stepRank, agentRank]
  rw [hhead]
  have k3 : SortedGe 3 (List.replicate (n + 5) 3 ++ X.filterMap stageKey) :=
    sortedGe_replicate_append (le_refl 3) (n + 5) (sortedGe_mono (by omega) hX)
  have k2 : SortedGe 2 (2 :: (List.replicate (n + 5) 3 ++ X.filterMap stageKey)) :=
    sortedGe_cons (le_refl 2) (sortedGe_mono (by omega) k3)
  have k1 : SortedGe 1
      (1 :: 1 :: 1 :: 2 :: (List.replicate (n + 5) 3 ++ X.filterMap stageKey)) :=
    sortedGe_cons (le_refl 1) (sortedGe_cons (le_refl 1) (sortedGe_cons (le_refl 1)
      (sortedGe_mono (by omega) k2)))
  exact (sortedGe_cons (le_refl 0) (sortedGe_mono (by omega) k1)).1

theorem genBlock_filter_lifecycle (n : Nat) :
    (genBlock n).filter isLifecycle =
      [.stepStarted "code_generator", .stepFinished "code_generator"] := by
  simp [genBlock, List.filter_append, filter_lifecycle_tm, isLifecycle]

/-- C2 (amended): the event stream of a single-file run is structurally
ordered, but neither bracketed as claimed nor unconditionally terminated.
For every run - any number of generator chunks and any three stage
results - the lifecycle events that reach the client form a prefix of
the canonical bracket sequence (run-started, one step-started /
step-finished pair per stage in pipeline order, run-finished), and the
stage-key sequence is sorted: every stage event occurs at or after its
own step-started and stages never interleave.  When moreover the three
stage results are crash-free (stageOk: the fields their agents count are
sized, their reported fixes iterable and well-typed), the run completes,
the stream ends with the terminal run-finished event and its lifecycle
events are exactly the canonical sequence.  Two divergences from the
claim stand: a stage's summary events (workflow update, agent_result)
are emitted after its step-finished rather than before it (see the
counterexample), and a crashing stage result - e.g. a truthy
non-iterable fixes_applied - aborts the generator mid-stream, so the
stream then ends with no terminal event at all. -/
theorem c2_event_stream_structure (n : Nat) (v t s : Json) :
    (∃ k, (singleFileRun n v t s).filter isLifecycle = lifecycleCanonical.take k) ∧
    List.Sorted (· ≤ ·) ((singleFileRun n v t s).filterMap stageKey) ∧
    (stageOk valMsgOk v = true → stageOk testMsgOk t = true →
     stageOk secMsgOk s = true →
      (singleFileRun n v t s).getLast? = some .runFinished ∧
      (singleFileRun n v t s).filter isLifecycle = lifecycleCanonical) := by
  cases hv : stageOk valMsgOk v with
  | false =>
    rw [singleFileRun_shape_vfail n v t s hv]
    refine ⟨⟨6, ?_⟩, ?_, ?_⟩
    · simp [List.filter_append, classifierBlock, genBlock_filter_lifecycle,
        stagePre, isLifecycle, lifecycleCanonical]
    · apply sorted_head_chain
      have hpre : (stagePre "validator" "Validator").filterMap stageKey = [4, 5] := by
        decide
      rw [hpre]
      exact sortedGe_cons (le_refl 4) (sortedGe_cons (by omega) (sortedGe_nil 5))
    · intro h1 _ _
      exact absurd h1 (by decide)
  | true =>
    cases ht : stageOk testMsgOk t with
    | false =>
      rw [singleFileRun_shape_tfail n v t s hv ht]
      obtain ⟨m2, hm2⟩ := stageEvents_filterMap "validator" "Validator" "Validator"
        "validator" valMsgOk 2 rfl rfl rfl rfl v
      norm_num at hm2
      have hfv := stageEvents_filter_ok "validator" "Validator" "Validator"
        "validator" valMsgOk v hv
      refine ⟨⟨8, ?_⟩, ?_, ?_⟩
      · simp [List.filter_append, classifierBlock, genBlock_filter_lifecycle,
          hfv, stagePre, isLifecycle, lifecycleCanonical]
      · apply sorted_head_chain
        have hpre : (stagePre "testing" "Testing Agent").filterMap stageKey = [6, 7] := by
          decide
        rw [List.filterMap_append, hm2, hpre, List.cons_append]
        have k6 : SortedGe 6 ([6, 7] : List Nat) :=
          sortedGe_cons (le_refl 6) (sortedGe_cons (by omega) (sortedGe_nil 7))
        have k5 : SortedGe 5 (List.replicate m2 5 ++ [6, 7]) :=
          sortedGe_replicate_append (le_refl 5) m2 (sortedGe_mono (by omega) k6)
        exact sortedGe_cons (le_refl 4) (sortedGe_mono (by omega) k5)
      · intro _ h2 _
        exact absurd h2 (by decide)
    | true =>
      cases hsec : stageOk secMsgOk s with
      | false =>
        rw [singleFileRun_shape_sfail n v t s hv ht hsec]
        obtain ⟨m2, hm2⟩ := stageEvents_filterMap "validator" "Validator" "Validator"
          "validator" valMsgOk 2 rfl rfl rfl rfl v
        obtain ⟨m3, hm3⟩ := stageEvents_filterMap "testing" "Testing Agent" "Testing"
          "testing" testMsgOk 3 rfl rfl rfl rfl t
        norm_num at hm2 hm3
        have hfv := stageEvents_filter_ok "validator" "Validator" "Validator"
          "validator" valMsgOk v hv
        have hft := stageEvents_filter_ok "testing" "Testing Agent" "Testing"
          "testing" testMsgOk t ht
        refine ⟨⟨10, ?_⟩, ?_, ?_⟩
        · simp [List.filter_append, classifierBlock, genBlock_filter_lifecycle,
            hfv, hft, stagePre, isLifecycle, lifecycleCanonical]
        · apply sorted_head_chain
          have hpre : (stagePre "security" "Security Agent").filterMap stageKey
              = [8, 9] := by decide
          rw [List.filterMap_append, List.filterMap_append, hm2, hm3, hpre]
          simp only [List.cons_append]
          have k8 : SortedGe 8 ([8, 9] : List Nat) :=
            sortedGe_cons (le_refl 8) (sortedGe_cons (by omega) (sortedGe_nil 9))
          have k7 : SortedGe 7 (List.replicate m3 7 ++ [8, 9]) :=
            sortedGe_replicate_append (le_refl 7) m3 (sortedGe_mono (by omega) k8)
          have k6 : SortedGe 6 (6 :: (List.replicate m3 7 ++ [8, 9])) :=
            sortedGe_cons (le_refl 6) (sortedGe_mono (by omega) k7)
          have k5 : SortedGe 5 (List.replicate m2 5 ++
              (6 :: (List.replicate m3 7 ++ [8, 9]))) :=
            sortedGe_replicate_append (le_refl 5) m2 (sortedGe_mono (by omega) k6)
          exact sortedGe_cons (le_refl 4) (sortedGe_mono (by omega) k5)
        · intro _ _ h3
          exact absurd h3 (by decide)
      | true =>
        rw [singleFileRun_shape_ok n v t s hv ht hsec]
        obtain ⟨m2, hm2⟩ := stageEvents_filterMap "validator" "Validator" "Validator"
          "validator" valMsgOk 2 rfl rfl rfl rfl v
        obtain ⟨m3, hm3⟩ := stageEvents_filterMap "testing" "Testing Agent" "Testing"
          "testing" testMsgOk 3 rfl rfl rfl rfl t
        obtain ⟨m4, hm4⟩ := stageEvents_filterMap "security" "Security Agent" "Security"
          "security" secMsgOk 4 rfl rfl rfl rfl s
        norm_num at hm2 hm3 hm4
        have hfv := stageEvents_filter_ok "validator" "Validator" "Validator"
          "validator" valMsgOk v hv
        have hft := stageEvents_filter_ok "testing" "Testing Agent" "Testing"
          "testing" testMsgOk t ht
        have hfs := stageEvents_filter_ok "security" "Security Agent" "Security"
          "security" secMsgOk s hsec
        refine ⟨⟨12, ?_⟩, ?_, fun _ _ _ => ⟨?_, ?_⟩⟩
        · simp [List.filter_append, classifierBlock, genBlock_filter_lifecycle,
            hfv, hft, hfs, isLifecycle, lifecycleCanonical]
        · apply sorted_head_chain
          have htail : ([Ev.stateSnapshot, Ev.runFinished] : List Ev).filterMap stageKey
              = [] := rfl
          rw [List.filterMap_append, List.filterMap_append, List.filterMap_append,
            hm2, hm3, hm4, htail]
          simp only [List.cons_append, List.append_nil]
          have k9 : SortedGe 9 (List.replicate m4 9) := by
            simpa using sortedGe_replicate_append_self m4 (sortedGe_nil 9)
          have k8 : SortedGe 8 (8 :: List.replicate m4 9) :=
            sortedGe_cons (le_refl 8) (sortedGe_mono (by omega) k9)
          have k7 : SortedGe 7 (List.replicate m3 7 ++ (8 :: List.replicate m4 9)) :=
            sortedGe_replicate_append (le_refl 7) m3 (sortedGe_mono (by omega) k8)
          have k6 : SortedGe 6 (6 :: (List.replicate m3 7 ++ (8 :: List.replicate m4 9))) :=
            sortedGe_cons (le_refl 6) (sortedGe_mono (by omega) k7)
          have k5 : SortedGe 5 (List.replicate m2 5 ++
              (6 :: (List.replicate m3 7 ++ (8 :: List.replicate m4 9)))) :=
            sortedGe_replicate_append (le_refl 5) m2 (sortedGe_mono (by omega) k6)
          exact sortedGe_cons (le_refl 4) (sortedGe_mono (by omega) k5)
        · rw [← List.head?_reverse]
          simp [List.reverse_append]
        · simp [List.filter_append, classifierBlock, genBlock_filter_lifecycle,
            hfv, hft, hfs, isLifecycle, lifecycleCanonical]

/-- Witness for C2 at concrete crash-free inputs: with no streamed chunks
and three empty-object stage results the well-formedness hypotheses hold,
the stream ends with run-finished and its lifecycle events are exactly
the canonical bracket sequence. -/
theorem c2_event_stream_structure_witness :
    (singleFileRun 0 (.obj []) (.obj []) (.obj [])).getLast? = some .runFinished ∧
    (singleFileRun 0 (.obj []) (.obj []) (.obj [])).filter isLifecycle =
      lifecycleCanonical :=
  (c2_event_stream_structure 0 (.obj []) (.obj []) (.obj [])).2.2
    (by decide) (by decide) (by decide)

/-- C2 counterexample: the emitted stream is not bracketed the way the
claim states.  On the concrete run with no streamed chunks and no-fix
results, step_finished("validator") is emitted at position 18 while the
Validator's agent_result follows at position 20 (after two more events),
so an event belonging to the validator stage appears after that stage's
step-finished and the claim's bracketing property is false. -/
theorem c2_counterexample :
    (singleFileRun 0 (.obj []) (.obj []) (.obj [])).get? 18 =
      some (.stepFinished "validator") ∧
    (singleFileRun 0 (.obj []) (.obj []) (.obj [])).get? 20 =
      some (.agentResult "Validator") ∧
    stageRankOf (.agentResult "Validator") = stepRank "validator" ∧
    claimBracketed (singleFileRun 0 (.obj []) (.obj []) (.obj [])) = false := by
  refine ⟨rfl, rfl, rfl, by decide⟩
